import Mathlib

/-!
# Verification development for the Playwright test helpers

Shallow embedding of the helper modules of the repository and the properties
their specification states:

* `playwright_tests/helpers/performance-reporter.js` (class
  `PerformanceReporter`),
* `playwright_tests/helpers/config.js` (class `TestConfig`),
* `playwright_tests/test-data/test-data.js` (class `TestDataHelper`),
* `tests/helpers/test-utils.js` (class `TestUtils`).

Modelling conventions

* The mutable reporter object is an explicit state value; every lifecycle
  callback takes the state and returns the new one.
* `Date.now()` is an explicit argument (`now`) of each callback that reads the
  clock.  Nothing in the source makes two readings ordered.
* `path.relative(process.cwd(), ·)` is a Node library call; it is taken as the
  parameter `cwdRelative`.
* Console output is advisory and is not modelled.
* The file system is seen through the calls a method attempts, in order, and
  the exception that leaves it (`Effect`); whether a call throws, what is found
  at the pytest path and the text of `new Date().toISOString()` are given by
  the `Host`.
* `JSON.stringify` followed by `JSON.parse` is modelled on values
  (`throughJson`): the text in between is not.
* `Math.random()` is an explicit `RandomSource`; a method that draws from it
  takes the number of draws made so far.
* A JavaScript number is a double: `JsNum` holds the rational a finite double
  denotes, or `NaN`, or an infinity.  A quotient and a product are rounded to
  the nearest double, ties to even (`Binary64.nearest`), as IEEE-754 binary64
  arithmetic does; `toFixed(2)` then works on the exact value of the double.
  Timestamps, durations and counters are integers below `2^53` in magnitude,
  which doubles hold exactly, and so are their sums and differences while
  they stay below `2^53`.
* A row object handed to `generateCSVContent` is its own enumerable
  properties, in the order `Object.keys` lists them, together with what a
  property read finds along its prototype chain.
-/

set_option autoImplicit false

/-! ## JavaScript numbers -/

/-- A JavaScript number as far as the reporter computes with it: a finite
double (the rational it denotes), `NaN`, `Infinity` or `-Infinity`. -/
inductive JsNum where
  | fin (q : ℚ)
  | nan
  | posInf
  | negInf
  deriving DecidableEq

/-! ### Rounding to a double -/

namespace Binary64

/-- The power `2^e` for an integer `e`. -/
def pow2 (e : Int) : ℚ :=
  if 0 ≤ e then ((2 ^ e.toNat : Nat) : ℚ) else 1 / ((2 ^ (-e).toNat : Nat) : ℚ)

/-- The binary logarithm of `n` rounded down, with `fuel` halvings allowed. -/
def log2Fuel : Nat → Nat → Nat
  | 0, _ => 0
  | fuel + 1, n => if 2 ≤ n then log2Fuel fuel (n / 2) + 1 else 0

/-- The binary logarithm of a positive natural number, rounded down. -/
def log2 (n : Nat) : Nat :=
  log2Fuel n n

/-- The binary exponent of a non-zero value: the integer `e` with
`2^e ≤ |x| < 2^(e+1)`.  The difference of the logarithms of numerator and
denominator is `e` or `e + 1`. -/
def exponent (x : ℚ) : Int :=
  let e0 : Int := (log2 x.num.natAbs : Int) - (log2 x.den : Int)
  if pow2 e0 ≤ |x| then e0 else e0 - 1

/-- The integer nearest to `m`; a value midway between two integers goes to the
even one. -/
def roundHalfEven (m : ℚ) : Int :=
  if m - ⌊m⌋ < 1 / 2 then ⌊m⌋
  else if 1 / 2 < m - ⌊m⌋ then ⌊m⌋ + 1
  else if ⌊m⌋ % 2 = 0 then ⌊m⌋ else ⌊m⌋ + 1

/-- A positive value rounded to the binary64 grid: 53 significant bits, the
exponent not below `-1022` (smaller values fall on the subnormal grid of
spacing `2^-1074`). -/
def roundMagnitude (x : ℚ) : ℚ :=
  let quantum := pow2 (max (exponent x) (-1022) - 52)
  (roundHalfEven (x / quantum) : ℚ) * quantum

/-- The double nearest to the exact value `x` (round to nearest, ties to even);
a result of magnitude `2^1024` or more is an infinity. -/
def nearest (x : ℚ) : JsNum :=
  if x = 0 then JsNum.fin 0
  else if pow2 1024 ≤ roundMagnitude |x| then
    (if 0 < x then JsNum.posInf else JsNum.negInf)
  else if 0 < x then JsNum.fin (roundMagnitude |x|)
  else JsNum.fin (-roundMagnitude |x|)

end Binary64

namespace JsNum

/-- Quotient `a / b` of two finite doubles: the exact quotient rounded to the
nearest double.  A zero divisor is the positive zero (every divisor in the
reporter is a counter, or a `Math.max` / `a - b` of finite numbers), so `0/0`
is `NaN` and `x/0` is `±Infinity` with the sign of `x`. -/
def div (a b : ℚ) : JsNum :=
  if b = 0 then
    (if a = 0 then nan else if 0 < a then posInf else negInf)
  else Binary64.nearest (a / b)

/-- Product `x * c` with a finite positive constant `c` (the reporter only
multiplies by `100`): the exact product rounded to the nearest double. -/
def mulPos (x : JsNum) (c : ℚ) : JsNum :=
  match x with
  | fin q => Binary64.nearest (q * c)
  | nan => nan
  | posInf => posInf
  | negInf => negInf

/-- The comparison `x >= 0` of JavaScript (false for `NaN`). -/
def geZero (x : JsNum) : Bool :=
  match x with
  | fin q => decide (0 ≤ q)
  | nan => false
  | posInf => true
  | negInf => false

end JsNum

/-! ## Data model -/

/-- The part of Playwright's `TestCase` that the reporter reads, with the
`_startTime` property that `onTestBegin` attaches (`none` is `undefined`). -/
structure TestCase where
  title : String
  titlePath : List String
  locationFile : String
  _startTime : Option Int

/-- Playwright's `TestError`, of which the reporter reads `message`.  The
property is optional: the error of a thrown value that is not an `Error` has
no `message` (`none`). -/
structure TestError where
  message : Option String

/-- The value of the `error` property of a record (line 54): `null`,
`undefined`, or a message string. -/
inductive RecordError
  | null
  | undefined
  | message (text : String)
  deriving DecidableEq

/-- The property read `result.error.message`: `undefined` when the error has
no message. -/
def TestError.messageValue (e : TestError) : RecordError :=
  match e.message with
  | some m => RecordError.message m
  | none => RecordError.undefined

/-- The part of Playwright's `TestResult` that the reporter reads.  `status` is
the string the runtime passes; `error` is `none` when the property is absent. -/
structure TestResult where
  status : String
  error : Option TestError
  retry : Nat

/-- The object literal `testResult` built in `onTestEnd` (lines 48-58).
`startTime := none` is `undefined`. -/
structure TestRecord where
  title : String
  fullTitle : String
  file : String
  duration : JsNum
  status : String
  error : RecordError
  retries : Nat
  startTime : Option Int
  endTime : Int

/-- The fields of a `PerformanceReporter` instance (lines 10-18). -/
structure PerformanceReporter where
  testResults : List TestRecord
  suiteStartTime : Option Int
  suiteEndTime : Option Int
  totalTests : Nat
  passedTests : Nat
  failedTests : Nat
  skippedTests : Nat

namespace PerformanceReporter

/-- The constructor (lines 10-18): a fresh reporter. -/
def constructor : PerformanceReporter :=
  { testResults := []
    suiteStartTime := none
    suiteEndTime := none
    totalTests := 0
    passedTests := 0
    failedTests := 0
    skippedTests := 0 }

/-- Method `onBegin` (lines 20-23): stores the clock reading. -/
def onBegin (r : PerformanceReporter) (now : Int) : PerformanceReporter :=
  { r with suiteStartTime := some now }

/-- Method `onTestBegin` (lines 25-27): stamps the test object with the clock. -/
def onTestBegin (test : TestCase) (now : Int) : TestCase :=
  { test with _startTime := some now }

/-- The difference `endTime - test._startTime` (line 31): a number minus `undefined` is
`NaN`. -/
def elapsed (endTime : Int) (start : Option Int) : JsNum :=
  match start with
  | some s => JsNum.fin ((endTime - s : Int) : ℚ)
  | none => JsNum.nan

/-- The `switch (result.status)` of lines 35-46, applied to the counters.  There
is no `default` branch. -/
def countStatus (r : PerformanceReporter) (status : String) : PerformanceReporter :=
  if status = "passed" then { r with passedTests := r.passedTests + 1 }
  else if status = "failed" then { r with failedTests := r.failedTests + 1 }
  else if status = "skipped" ∨ status = "timedOut" then
    { r with skippedTests := r.skippedTests + 1 }
  else r

/-- The record built at lines 48-58. -/
def mkTestResult (cwdRelative : String → String) (endTime : Int) (test : TestCase)
    (result : TestResult) : TestRecord :=
  { title := test.title
    fullTitle := " > ".intercalate test.titlePath
    file := cwdRelative test.locationFile
    duration := elapsed endTime test._startTime
    status := result.status
    error := match result.error with
      | some e => e.messageValue
      | none => RecordError.null
    retries := result.retry
    startTime := test._startTime
    endTime := endTime }

/-- Method `onTestEnd` (lines 29-65): `totalTests++`, the status switch, then the new
record is pushed at the end of `testResults`. -/
def onTestEnd (r : PerformanceReporter) (cwdRelative : String → String) (now : Int)
    (test : TestCase) (result : TestResult) : PerformanceReporter :=
  let r1 := { r with totalTests := r.totalTests + 1 }
  let r2 := countStatus r1 result.status
  { r2 with testResults := r2.testResults ++ [mkTestResult cwdRelative now test result] }

/-- One `onTestEnd` call as the runtime issues it: the clock reading at the
call, the test object and its result. -/
structure EndCall where
  now : Int
  test : TestCase
  result : TestResult

/-- A sequence of `onTestEnd` calls, in arrival order, on a reporter. -/
def runFrom (r : PerformanceReporter) (cwdRelative : String → String)
    (calls : List EndCall) : PerformanceReporter :=
  calls.foldl (fun s c => s.onTestEnd cwdRelative c.now c.test c.result) r

/-- A sequence of `onTestEnd` calls on a fresh reporter. -/
def run (cwdRelative : String → String) (calls : List EndCall) : PerformanceReporter :=
  runFrom constructor cwdRelative calls

end PerformanceReporter

/-! ## `Number.prototype.toFixed(2)` -/

/-- The two decimal digits of `k % 100`, with a leading zero when needed. -/
def twoDigits (k : Nat) : String :=
  toString (k % 100 / 10) ++ toString (k % 10)

/-- The text `toFixed(2)` assembles from the sign and the integer `n` of
hundredths: the digits of `n / 100`, a point, and the last two digits. -/
def fixedText (neg : Bool) (n : Nat) : String :=
  (if neg then "-" else "") ++ toString (n / 100) ++ "." ++ twoDigits n

/-- The integer `n` for which `n / 100 - x` is as close to zero as possible,
the larger `n` when there are two (`x` is non-negative here). -/
def nearestHundredths (x : ℚ) : Nat :=
  ⌊x * 100 + 1 / 2⌋.toNat

/-- The call `x.toFixed(2)`.  Values that are not finite, and finite magnitudes from
`10^21` on, are handed by the language to `Number::toString`; for the finite
ones that text is the exponent notation of the double, which is not computed
here, so it is taken as the parameter `expText`. -/
def toFixed2 (expText : ℚ → String) (x : JsNum) : String :=
  match x with
  | JsNum.nan => "NaN"
  | JsNum.posInf => "Infinity"
  | JsNum.negInf => "-Infinity"
  | JsNum.fin q =>
    if (10 : ℚ) ^ 21 ≤ |q| then (if q < 0 then "-" else "") ++ expText |q|
    else fixedText (decide (q < 0)) (nearestHundredths |q|)

/-! ## The comparison section -/

/-- The fields `createComparisonSection` reads from the parsed pytest summary;
`none` is an absent (`undefined`) or `null` property. -/
structure PytestData where
  totalDuration : Option Int
  totalTests : Option Int
  passed : Option Int
  failed : Option Int

/-- The expression `v || d` on a number-or-absent property: an absent value and
the number `0` are falsy. -/
def orDefault (v : Option Int) (d : Int) : Int :=
  match v with
  | some n => if n = 0 then d else n
  | none => d

/-- The markup of the winner badge (lines 586 and 614). -/
def winnerBadge : String := "<span class=\"winner-badge\">⚡ FASTER</span>"

/-- The interpolated parts of the template literal returned by
`createComparisonSection` (lines 578-656), in order of appearance; the text
between them is constant. -/
structure ComparisonSection where
  playwrightBadge : String
  playwrightTotal : String
  playwrightTests : String
  playwrightPassed : String
  playwrightFailed : String
  playwrightAvg : String
  pytestBadge : String
  pytestTotal : String
  pytestTests : String
  pytestPassed : String
  pytestFailed : String
  pytestAvg : String
  fasterName : String
  percentDiff : String
  diffSeconds : String
  playwrightBar : String
  playwrightBarValue : String
  pytestBar : String
  pytestBarValue : String

namespace PerformanceReporter

/-- The constant `pytestDuration`, `pytestData.totalDuration || 0` (line 573). -/
def pytestDurationOf (pytestData : PytestData) : Int :=
  orDefault pytestData.totalDuration 0

/-- The constant `playwrightFaster` (line 574). -/
def playwrightFaster (pytestData : PytestData) (playwrightDuration : Int) : Bool :=
  decide (pytestDurationOf pytestData > playwrightDuration)

/-- The constant `diff` (line 575). -/
def diffOf (pytestData : PytestData) (playwrightDuration : Int) : Int :=
  |pytestDurationOf pytestData - playwrightDuration|

/-- The constant `percentDiff` (line 576). -/
def percentDiffOf (expText : ℚ → String) (pytestData : PytestData)
    (playwrightDuration : Int) : String :=
  toFixed2 expText
    ((JsNum.div (diffOf pytestData playwrightDuration : ℚ)
        ((max (pytestDurationOf pytestData) playwrightDuration : Int) : ℚ)).mulPos 100)

/-- Method `createComparisonSection` (lines 572-657). -/
def createComparisonSection (r : PerformanceReporter) (expText : ℚ → String)
    (pytestData : PytestData) (playwrightDuration : Int) : ComparisonSection :=
  let pytestDuration := pytestDurationOf pytestData
  let faster := playwrightFaster pytestData playwrightDuration
  let diff := diffOf pytestData playwrightDuration
  { playwrightBadge := if faster then winnerBadge else ""
    playwrightTotal := toFixed2 expText (JsNum.div playwrightDuration 1000)
    playwrightTests := toString r.totalTests
    playwrightPassed := toString r.passedTests
    playwrightFailed := toString r.failedTests
    playwrightAvg := toFixed2 expText (JsNum.div playwrightDuration r.totalTests)
    pytestBadge := if !faster then winnerBadge else ""
    pytestTotal := toFixed2 expText (JsNum.div pytestDuration 1000)
    pytestTests := toString (orDefault pytestData.totalTests 0)
    pytestPassed := toString (orDefault pytestData.passed 0)
    pytestFailed := toString (orDefault pytestData.failed 0)
    pytestAvg := toFixed2 expText
      (JsNum.div pytestDuration (orDefault pytestData.totalTests 1))
    fasterName := if faster then "Playwright" else "Pytest"
    percentDiff := percentDiffOf expText pytestData playwrightDuration
    diffSeconds := toFixed2 expText (JsNum.div diff 1000)
    playwrightBar := if faster then "60%" else "100%"
    playwrightBarValue := toFixed2 expText (JsNum.div playwrightDuration 1000)
    pytestBar := if !faster then "60%" else "100%"
    pytestBarValue := toFixed2 expText (JsNum.div pytestDuration 1000) }

/-- The value of `avgDuration` (line 111): the text of `toFixed(2)`, or the
number `0`. -/
inductive AvgDuration where
  | text (s : String)
  | number (n : Int)
  deriving DecidableEq

/-- The constant `avgDuration` of `createHTMLReport` (line 111). -/
def avgDuration (r : PerformanceReporter) (expText : ℚ → String) (totalDuration : Int) :
    AvgDuration :=
  if r.totalTests > 0 then
    AvgDuration.text (toFixed2 expText (JsNum.div totalDuration r.totalTests))
  else AvgDuration.number 0

/-- The interpolation of `avgDuration` into the template literal (line 554,
before the constant `ms`). -/
def AvgDuration.interpolate : AvgDuration → String
  | AvgDuration.text s => s
  | AvgDuration.number n => toString n

end PerformanceReporter

/-! ## The HTML report and the comparison file -/

/-- Whether the text `needle` occurs somewhere inside the text `hay`. -/
def containsText (hay needle : String) : Bool :=
  hay.data.tails.any (fun rest => needle.data.isPrefixOf rest)

/-- The constant template literal assigned to `comparisonSection` when the
pytest file does not exist (lines 126-133). -/
def placeholderText : String :=
  "\n        <div class=\"comparison-placeholder\">\n" ++
  "          <h2>⏳ Pytest Comparison Pending</h2>\n" ++
  "          <p>To compare with pytest results, run:</p>\n" ++
  "          <pre>cd /workspaces && python run_tests.py --json-report</pre>\n" ++
  "          <p>Then re-run the Playwright tests to generate the comparison.</p>\n" ++
  "        </div>\n      "

/-- The value `JSON.parse` returns for the pytest file, as far as
`createComparisonSection` can tell values apart: reading a property of `null`
throws, every other value yields its four properties (absent ones read as
`undefined`). -/
inductive ParsedJson where
  | null
  | data (d : PytestData)

/-- What lines 118-120 find at `pytestPath`: no file (`fs.existsSync` is
false), a file whose `fs.readFileSync` or `JSON.parse` throws, or a parsed
value. -/
inductive PytestFile where
  | absent
  | unparsable
  | parsed (v : ParsedJson)

/-- The value of the variable `comparisonSection` of `createHTMLReport` when the
document is assembled: the empty text it is initialised with (line 116), the
constant placeholder (lines 126-133), or the text built by
`createComparisonSection`. -/
inductive ComparisonSlot where
  | empty
  | placeholder
  | section (s : ComparisonSection)

/-- The text of a comparison slot whose content is constant. -/
def ComparisonSlot.constantText : ComparisonSlot → Option String
  | ComparisonSlot.empty => some ""
  | ComparisonSlot.placeholder => some placeholderText
  | ComparisonSlot.section _ => none

/-- The interpolated parts of the document returned by `createHTMLReport`
(lines 136-569).  The three `new Date()` texts (lines 493 and 564) and the bar
height (line 553) are left out; the table has one row per record of
`testResults`, in order (lines 535-542). -/
structure HtmlReport where
  totalSeconds : String
  passed : String
  failed : String
  skipped : String
  comparisonSection : ComparisonSlot
  rows : List TestRecord
  avgDuration : PerformanceReporter.AvgDuration

/-- The object literal `reportData` of `saveResults` (lines 86-95). -/
structure ReportData where
  framework : String
  timestamp : String
  totalDuration : Int
  totalTests : Nat
  passed : Nat
  failed : Nat
  skipped : Nat
  tests : List TestRecord

/-- A file-system call of `saveResults` or `generateHTMLReport`.  Paths are
relative to `process.cwd()`; the content of a write is given by the value that
is serialised. -/
inductive FsCall where
  | mkdir (path : String)
  | writeJson (path : String) (data : ReportData)
  | writeHtml (path : String) (document : HtmlReport)

/-- The surroundings of one `onEnd` call: the exponent text of `toFixed`, the
text of `new Date().toISOString()`, the state of the pytest file, and for each
file-system call the error it throws, if any. -/
structure Host where
  expText : ℚ → String
  isoTimestamp : String
  pytestFile : PytestFile
  mkdirError : Option String
  writeJsonError : Option String
  writeHtmlError : Option String

/-- The effect of a method that touches the file system: the calls it
attempted, in order (a call that threw is the last one), and the exception
that left the method, if any. -/
structure Effect where
  attempted : List FsCall
  thrown : Option String

namespace PerformanceReporter

/-- The body of the `try` block (lines 120-121): parse, then build the
section; an exception leaves the block. -/
def tryComparison (r : PerformanceReporter) (expText : ℚ → String) (file : PytestFile)
    (totalDuration : Int) : Except String ComparisonSection :=
  match file with
  | PytestFile.absent => Except.error "ENOENT"
  | PytestFile.unparsable => Except.error "SyntaxError"
  | PytestFile.parsed ParsedJson.null => Except.error "TypeError"
  | PytestFile.parsed (ParsedJson.data d) =>
    Except.ok (r.createComparisonSection expText d totalDuration)

/-- Lines 113-134 of `createHTMLReport`: the value of `comparisonSection`. -/
def comparisonSlot (r : PerformanceReporter) (expText : ℚ → String) (file : PytestFile)
    (totalDuration : Int) : ComparisonSlot :=
  match file with
  | PytestFile.absent => ComparisonSlot.placeholder
  | _ =>
    match r.tryComparison expText file totalDuration with
    | Except.ok s => ComparisonSlot.section s
    | Except.error _ => ComparisonSlot.empty

/-- Method `createHTMLReport` (lines 110-570).  No statement of it lets an
exception escape, so the result is always `Except.ok`. -/
def createHTMLReport (r : PerformanceReporter) (host : Host) (totalDuration : Int) :
    Except String HtmlReport :=
  Except.ok
    { totalSeconds := toFixed2 host.expText (JsNum.div totalDuration 1000)
      passed := toString r.passedTests
      failed := toString r.failedTests
      skipped := toString r.skippedTests
      comparisonSection := r.comparisonSlot host.expText host.pytestFile totalDuration
      rows := r.testResults
      avgDuration := r.avgDuration host.expText totalDuration }

/-- The object `reportData` built by `saveResults` (lines 86-95). -/
def reportData (r : PerformanceReporter) (timestamp : String) (totalDuration : Int) :
    ReportData :=
  { framework := "Playwright"
    timestamp := timestamp
    totalDuration := totalDuration
    totalTests := r.totalTests
    passed := r.passedTests
    failed := r.failedTests
    skipped := r.skippedTests
    tests := r.testResults }

/-- Method `saveResults` (lines 85-101): `mkdirSync`, then `writeFileSync`;
neither call is inside a `try`. -/
def saveResults (r : PerformanceReporter) (host : Host) (totalDuration : Int) : Effect :=
  let data := r.reportData host.isoTimestamp totalDuration
  match host.mkdirError with
  | some e => { attempted := [FsCall.mkdir "reports"], thrown := some e }
  | none =>
    { attempted := [FsCall.mkdir "reports",
        FsCall.writeJson "reports/playwright-results.json" data]
      thrown := host.writeJsonError }

/-- Method `generateHTMLReport` (lines 103-108). -/
def generateHTMLReport (r : PerformanceReporter) (host : Host) (totalDuration : Int) :
    Effect :=
  match r.createHTMLReport host totalDuration with
  | Except.error e => { attempted := [], thrown := some e }
  | Except.ok document =>
    { attempted := [FsCall.writeHtml "reports/performance-comparison.html" document]
      thrown := host.writeHtmlError }

/-- Lines 78-82 of `onEnd`: `saveResults`, then `generateHTMLReport`, with the
total duration computed before; an exception of the first ends the method. -/
def writeReports (r : PerformanceReporter) (host : Host) (totalDuration : Int) : Effect :=
  let saved := r.saveResults host totalDuration
  match saved.thrown with
  | some e => { attempted := saved.attempted, thrown := some e }
  | none =>
    let generated := r.generateHTMLReport host totalDuration
    { attempted := saved.attempted ++ generated.attempted, thrown := generated.thrown }

/-- The constant `totalDuration` of `onEnd` (line 69), for the end reading
`now`; a `suiteStartTime` that is still `null` counts as `0` in the
subtraction. -/
def totalDurationAt (r : PerformanceReporter) (now : Int) : Int :=
  match r.suiteStartTime with
  | some s => now - s
  | none => now - 0

/-- Method `onEnd` (lines 67-83): the reporter afterwards and the effect on the
file system. -/
def onEnd (r : PerformanceReporter) (host : Host) (now : Int) :
    PerformanceReporter × Effect :=
  let r1 := { r with suiteEndTime := some now }
  (r1, r1.writeReports host (r1.totalDurationAt now))

end PerformanceReporter

/-! ## The summary through `JSON.stringify` and `JSON.parse` -/

/-- A property value of the summary or of one of its records. -/
inductive JsScalar where
  | undefined
  | null
  | number (x : JsNum)
  | string (s : String)
  deriving DecidableEq

/-- A property value after `JSON.stringify` and `JSON.parse`: a property whose
value is `undefined` is not written, a number that is not finite is written as
`null`, every other value comes back as it was (finite numbers and strings are
written so that parsing restores them). -/
def JsScalar.throughJson : JsScalar → Option JsScalar
  | JsScalar.undefined => none
  | JsScalar.null => some JsScalar.null
  | JsScalar.number (JsNum.fin q) => some (JsScalar.number (JsNum.fin q))
  | JsScalar.number _ => some JsScalar.null
  | JsScalar.string s => some (JsScalar.string s)

/-- An object whose properties hold scalars: the properties in insertion
order. -/
abbrev JsObject := List (String × JsScalar)

/-- An object after `JSON.stringify` and `JSON.parse`. -/
def JsObject.throughJson (o : JsObject) : JsObject :=
  o.filterMap (fun p => (p.2.throughJson).map (fun v => (p.1, v)))

/-- The summary as a JavaScript value: its scalar properties and the array
`tests` of record objects. -/
structure SummaryValue where
  props : JsObject
  tests : List JsObject
  deriving DecidableEq

/-- The summary after `JSON.stringify` and `JSON.parse`. -/
def SummaryValue.throughJson (v : SummaryValue) : SummaryValue :=
  { props := JsObject.throughJson v.props
    tests := v.tests.map JsObject.throughJson }

/-- The record object of lines 48-58 as a JavaScript value. -/
def TestRecord.toJs (rec : TestRecord) : JsObject :=
  [("title", JsScalar.string rec.title),
   ("fullTitle", JsScalar.string rec.fullTitle),
   ("file", JsScalar.string rec.file),
   ("duration", JsScalar.number rec.duration),
   ("status", JsScalar.string rec.status),
   ("error", match rec.error with
      | RecordError.message m => JsScalar.string m
      | RecordError.undefined => JsScalar.undefined
      | RecordError.null => JsScalar.null),
   ("retries", JsScalar.number (JsNum.fin rec.retries)),
   ("startTime", match rec.startTime with
      | some s => JsScalar.number (JsNum.fin s)
      | none => JsScalar.undefined),
   ("endTime", JsScalar.number (JsNum.fin rec.endTime))]

/-- The object `reportData` of lines 86-95 as a JavaScript value. -/
def ReportData.toJs (d : ReportData) : SummaryValue :=
  { props :=
      [("framework", JsScalar.string d.framework),
       ("timestamp", JsScalar.string d.timestamp),
       ("totalDuration", JsScalar.number (JsNum.fin d.totalDuration)),
       ("totalTests", JsScalar.number (JsNum.fin d.totalTests)),
       ("passed", JsScalar.number (JsNum.fin d.passed)),
       ("failed", JsScalar.number (JsNum.fin d.failed)),
       ("skipped", JsScalar.number (JsNum.fin d.skipped))]
    tests := d.tests.map TestRecord.toJs }

/-! ## The specification's wording of the percentage -/

/-- The percentage difference as the specification words it:
`abs(a-b) / max(a,b) * 100`. -/
def specPercentDiff (a b : Int) : ℚ :=
  |(a : ℚ) - b| / max (a : ℚ) b * 100

/-- The number of hundredths `n` is the value `x` rounded to two decimals: no
number with two decimals is nearer to `x` than `n / 100`.  At an exact tie
either neighbour qualifies. -/
def roundsToHundredths (n : Nat) (x : ℚ) : Prop :=
  |(n : ℚ) / 100 - x| ≤ 1 / 200

/-! ## Record predicates -/

/-- The JavaScript comparison `endTime >= startTime` on a record; a comparison
with `undefined` is false. -/
def TestRecord.endNotBeforeStart (rec : TestRecord) : Bool :=
  match rec.startTime with
  | some s => decide (s ≤ rec.endTime)
  | none => false

/-- The record satisfies `duration >= 0` and `endTime >= startTime`. -/
def TestRecord.nonNegative (rec : TestRecord) : Bool :=
  rec.duration.geZero && rec.endNotBeforeStart

/-- The statuses the `switch` of `onTestEnd` has a `case` for. -/
def handledStatus (status : String) : Prop :=
  status = "passed" ∨ status = "failed" ∨ status = "skipped" ∨ status = "timedOut"

/-! ## The configuration helper (`playwright_tests/helpers/config.js`) -/

namespace TestConfig

/-- The call `.replace(/\\/g, '/')`: every backslash becomes a slash. -/
def replaceBackslashes (s : String) : String :=
  String.mk (s.data.map (fun c => if c = '\\' then '/' else c))

/-- The getter `HTML_FILES_PATH` (lines 14-16), for the value `projectRoot` of
`path.resolve(__dirname, '../..')`. -/
def HTML_FILES_PATH (projectRoot : String) : String :=
  projectRoot

/-- The getter `ADMIN_PROTOTYPE_URL` (lines 19-21). -/
def ADMIN_PROTOTYPE_URL (projectRoot : String) : String :=
  replaceBackslashes ("file://" ++ HTML_FILES_PATH projectRoot ++ "/admin-prototype.html")

end TestConfig

/-! ## The random source and string helpers of the test-data modules -/

/-- The outcomes of the random source.  The call number `k` of
`Math.random()` returns `draw k`, a number in `[0, 1)`.  The array that
`Array.prototype.sort` leaves for a copy of `l` under the random comparator
`() => 0.5 - Math.random()`, started after `k` draws, is `sorted k l`; it
depends on the engine's algorithm, which is not part of the repository. -/
structure RandomSource where
  draw : Nat → ℚ
  draw_nonneg : ∀ k, 0 ≤ draw k
  draw_lt_one : ∀ k, draw k < 1
  sorted : Nat → List String → List String

/-- The expression `Math.floor(Math.random() * n)` for the draw number `k`. -/
def RandomSource.floorTimes (rs : RandomSource) (k n : Nat) : Nat :=
  ⌊rs.draw k * n⌋.toNat

/-- The value of an optional string argument when it is truthy: an absent
(`null`, `undefined`) and an empty string are falsy. -/
def truthyString (v : Option String) : Option String :=
  match v with
  | some s => if s = "" then none else some s
  | none => none

/-- The interpolation of an array element into a template literal: an index
outside the array reads `undefined`. -/
def elementText (xs : List String) (i : Nat) : String :=
  match xs[i]? with
  | some s => s
  | none => "undefined"

/-- The call `s.padStart(targetLength, fill)` with a one-character `fill`. -/
def padStart (s : String) (targetLength : Nat) (fill : Char) : String :=
  String.mk (List.replicate (targetLength - s.length) fill) ++ s

/-- The call `s.replace(from, to)` with one-character texts: the first
occurrence is replaced. -/
def replaceFirstChar (old new : Char) : List Char → List Char
  | [] => []
  | c :: cs => if c = old then new :: cs else c :: replaceFirstChar old new cs

/-- The number a text of decimal digits denotes. -/
def decimalValue (cs : List Char) : Nat :=
  cs.foldl (fun acc c => acc * 10 + (c.toNat - 48)) 0

/-! ## The test-data helper (`playwright_tests/test-data/test-data.js`) -/

/-- An element of `getMockUsers()`. -/
structure MockUser where
  id : String
  name : String
  email : String
  role : String
  status : String

/-- An element of `getMockRoles()`. -/
structure MockRole where
  name : String
  description : String
  permissions : List String

/-- The options object of `createTestUser`; `none` is an absent or `null`
property. -/
structure UserOptions where
  userId : Option String
  name : Option String
  email : Option String
  role : Option String

/-- The object `createTestUser` returns; a `role` of `none` is `undefined`. -/
structure TestUser where
  id : String
  name : String
  email : String
  role : Option String
  deriving DecidableEq

/-- The options object of `createTestRole`; `none` is an absent or `null`
property (an empty array is truthy). -/
structure RoleOptions where
  name : Option String
  description : Option String
  permissions : Option (List String)

/-- The object `createTestRole` returns. -/
structure TestRole where
  name : String
  description : String
  permissions : List String

namespace TestDataHelper

/-- Method `getMockUsers` (lines 11-42). -/
def getMockUsers : List MockUser :=
  [{ id := "U001", name := "John Smith", email := "john.smith@company.com",
     role := "System Admin", status := "Active" },
   { id := "U002", name := "Mary Johnson", email := "mary.johnson@company.com",
     role := "Account Manager", status := "Active" },
   { id := "U003", name := "David Chen", email := "david.chen@company.com",
     role := "CIC Team", status := "Inactive" },
   { id := "U004", name := "Sarah Wilson", email := "sarah.wilson@company.com",
     role := "Management", status := "Active" }]

/-- Method `getMockRoles` (lines 47-70). -/
def getMockRoles : List MockRole :=
  [{ name := "System Admin"
     description := "Full system access and management privileges"
     permissions := ["user_management", "role_management", "settings_management",
       "system_administration"] },
   { name := "CIC Team"
     description := "Communication and incident coordination access"
     permissions := ["user_view", "notification_management", "reporting"] },
   { name := "Account Manager"
     description := "Customer account management access"
     permissions := ["customer_management", "notification_management"] },
   { name := "Management"
     description := "Management level access"
     permissions := ["reporting", "notification_view"] }]

/-- Method `getPermissions` (lines 119-134). -/
def getPermissions : List String :=
  ["user_management", "role_management", "settings_management", "system_administration",
   "user_view", "notification_management", "reporting", "outage_management",
   "technical_notifications", "system_monitoring", "notification_view", "basic_operations"]

/-- The array `firstNames` (line 152). -/
def firstNames : List String :=
  ["John", "Mary", "David", "Sarah", "Michael", "Lisa", "James", "Jennifer"]

/-- The array `lastNames` (line 153). -/
def lastNames : List String :=
  ["Smith", "Johnson", "Chen", "Wilson", "Brown", "Davis", "Miller", "Moore"]

/-- Method `createTestUser` (lines 141-175), started after `k` draws of the
random source; the result comes with the number of draws afterwards.
The library call `toLowerCase` is a parameter. -/
def createTestUser (rs : RandomSource) (toLowerCase : String → String)
    (options : UserOptions) (k : Nat) : TestUser × Nat :=
  let idStep : String × Nat :=
    match truthyString options.userId with
    | some v => (v, k)
    | none => ("U" ++ toString (rs.floorTimes k 900 + 100), k + 1)
  let nameStep : String × Nat :=
    match truthyString options.name with
    | some v => (v, idStep.2)
    | none =>
      (elementText firstNames (rs.floorTimes idStep.2 firstNames.length) ++ " "
          ++ elementText lastNames (rs.floorTimes (idStep.2 + 1) lastNames.length),
        idStep.2 + 2)
  let email : String :=
    match truthyString options.email with
    | some v => v
    | none =>
      String.mk (replaceFirstChar ' ' '.' (toLowerCase nameStep.1).data) ++ "@company.com"
  let roleStep : Option String × Nat :=
    match truthyString options.role with
    | some v => (some v, nameStep.2)
    | none =>
      ((getMockRoles.map MockRole.name)[rs.floorTimes nameStep.2
          (getMockRoles.map MockRole.name).length]?,
        nameStep.2 + 1)
  ({ id := idStep.1, name := nameStep.1, email := email, role := roleStep.1 }, roleStep.2)

/-- The array `rolePrefixes` (line 188). -/
def rolePrefixes : List String := ["Test", "Demo", "Sample", "Mock"]

/-- The array `roleSuffixes` (line 189). -/
def roleSuffixes : List String := ["Role", "User", "Admin", "Manager"]

/-- Method `createTestRole` (lines 182-213), started after `k` draws of the
random source. -/
def createTestRole (rs : RandomSource) (options : RoleOptions) (k : Nat) : TestRole :=
  let nameStep : String × Nat :=
    match truthyString options.name with
    | some v => (v, k)
    | none =>
      (elementText rolePrefixes (rs.floorTimes k rolePrefixes.length) ++ " "
          ++ elementText roleSuffixes (rs.floorTimes (k + 1) roleSuffixes.length),
        k + 2)
  let description : String :=
    match truthyString options.description with
    | some v => v
    | none => "Test role for " ++ nameStep.1 ++ " with limited permissions"
  let permissions : List String :=
    match options.permissions with
    | some v => v
    | none =>
      let permissionCount := rs.floorTimes nameStep.2 3 + 2
      let shuffled := rs.sorted (nameStep.2 + 1) getPermissions
      shuffled.take permissionCount
  { name := nameStep.1, description := description, permissions := permissions }

/-- The user id built at line 223 for the loop counter `i`. -/
def bulkUserId (i : Nat) : String :=
  "BULK" ++ padStart (toString (i + 1)) 3 '0'

/-- The loop of `generateBulkUsers` (lines 222-224) with `remaining` rounds to
go, the counter at `i` and `k` draws made so far. -/
def bulkLoop (rs : RandomSource) (toLowerCase : String → String) :
    Nat → Nat → Nat → List TestUser
  | 0, _, _ => []
  | remaining + 1, i, k =>
    let step := createTestUser rs toLowerCase
      { userId := some (bulkUserId i), name := none, email := none, role := none } k
    step.1 :: bulkLoop rs toLowerCase remaining (i + 1) step.2

/-- Method `generateBulkUsers` (lines 220-226) for a natural `count`, started
after `k` draws. -/
def generateBulkUsers (rs : RandomSource) (toLowerCase : String → String) (count k : Nat) :
    List TestUser :=
  bulkLoop rs toLowerCase count 0 k

end TestDataHelper

/-! ## The test utilities (`tests/helpers/test-utils.js`) -/

/-- A property value of a row object handed to `generateCSVContent`: a
primitive other than a symbol, or an object (a function included) together
with the text its conversion to a string returns. -/
inductive CellValue where
  | undefined
  | null
  | bool (b : Bool)
  | number (x : JsNum)
  | bigint (n : Int)
  | string (s : String)
  | object (text : String)

/-- Whether a value is truthy: `undefined`, `null`, `false`, `0`, `NaN`, `0n`
and the empty string are falsy; every object is truthy. -/
def CellValue.truthy : CellValue → Bool
  | CellValue.undefined => false
  | CellValue.null => false
  | CellValue.bool b => b
  | CellValue.number (JsNum.fin q) => decide (q ≠ 0)
  | CellValue.number JsNum.nan => false
  | CellValue.number _ => true
  | CellValue.bigint n => decide (n ≠ 0)
  | CellValue.string s => decide (s ≠ "")
  | CellValue.object _ => true

/-- The expression `v || ''`. -/
def CellValue.orEmpty (v : CellValue) : CellValue :=
  if v.truthy then v else CellValue.string ""

/-- The conversion of a number to a string: an integer of magnitude below
`2^53` is written in decimal digits; for every other finite number the text is
the runtime's shortest round-trip text, given by `hostText`. -/
def JsNum.numberToString (hostText : ℚ → String) : JsNum → String
  | JsNum.nan => "NaN"
  | JsNum.posInf => "Infinity"
  | JsNum.negInf => "-Infinity"
  | JsNum.fin q => if q.den = 1 ∧ |q.num| < 2 ^ 53 then toString q.num else hostText q

/-- The text `Array.prototype.join` writes for an element: nothing for
`undefined` and `null`, otherwise the element converted to a string. -/
def CellValue.joinText (hostText : ℚ → String) : CellValue → String
  | CellValue.undefined => ""
  | CellValue.null => ""
  | CellValue.bool b => if b then "true" else "false"
  | CellValue.number x => x.numberToString hostText
  | CellValue.bigint n => toString n
  | CellValue.string s => s
  | CellValue.object text => text

/-- A row object: `own` holds its own enumerable string-keyed properties in
the order `Object.keys` lists them; `inherited` is what a property read finds
for a key that is not among them, that is, a property of the prototype chain
or an own property that is not enumerable (`none` when the key is found
nowhere). -/
structure CsvRow where
  own : List (String × CellValue)
  inherited : String → Option CellValue

/-- The property read `row[header]`: the own property if there is one,
otherwise the property found along the prototype chain; a property found
nowhere reads `undefined`. -/
def CsvRow.read (row : CsvRow) (header : String) : CellValue :=
  match row.own.lookup header with
  | some v => v
  | none =>
    match row.inherited header with
    | some v => v
    | none => CellValue.undefined

/-- A built-in function with the given name; its conversion to a string gives
`function name() { [native code] }` in V8, the engine of Node.js. -/
def nativeFunction (name : String) : CellValue :=
  CellValue.object ("function " ++ name ++ "() \x7b [native code] \x7d")

/-- The properties a read finds on `Object.prototype`, which every object
literal inherits from: the built-in methods, the function `Object` under
`constructor`, and `Object.prototype` itself under `__proto__`. -/
def objectPrototype (key : String) : Option CellValue :=
  if key = "constructor" then some (nativeFunction "Object")
  else if key = "__proto__" then some (CellValue.object "[object Object]")
  else if key ∈ ["toString", "toLocaleString", "valueOf", "hasOwnProperty",
      "isPrototypeOf", "propertyIsEnumerable", "__defineGetter__", "__defineSetter__",
      "__lookupGetter__", "__lookupSetter__"] then some (nativeFunction key)
  else none

/-- An object literal with the given properties. -/
def objectLiteral (own : List (String × CellValue)) : CsvRow :=
  { own := own, inherited := objectPrototype }

namespace TestUtils

/-- The constant `chars` of `generateRandomString` (line 37). -/
def chars : String := "ABCDEFGHIJKLMNOPQRSTUVWXYZabcdefghijklmnopqrstuvwxyz0123456789"

/-- The call `s.charAt(i)`: the character at index `i` as a text, the empty
text when `i` is outside `s`. -/
def charAt (s : String) (i : Nat) : String :=
  match s.data[i]? with
  | some c => String.singleton c
  | none => ""

/-- The loop of `generateRandomString` (lines 39-41) with `remaining` rounds
to go, `k` draws made so far and the text built so far. -/
def randomStringLoop (rs : RandomSource) : Nat → Nat → String → String
  | 0, _, result => result
  | remaining + 1, k, result =>
    randomStringLoop rs remaining (k + 1)
      (result ++ charAt chars (rs.floorTimes k chars.length))

/-- Method `generateRandomString` (lines 36-43) for a natural `length`,
started after `k` draws. -/
def generateRandomString (rs : RandomSource) (length k : Nat) : String :=
  randomStringLoop rs length k ""

/-- Method `generateRandomStaffId` (lines 56-59), for the draw number `k`. -/
def generateRandomStaffId (rs : RandomSource) (k : Nat) : String :=
  let number := rs.floorTimes k 9999 + 1
  "EMP" ++ padStart (toString number) 4 '0'

/-- Method `generateCSVContent` (lines 224-234); `none` is a `null` or
`undefined` argument, `hostText` the runtime's text of the numbers that are
not integers below `2^53`. -/
def generateCSVContent (hostText : ℚ → String) (data : Option (List CsvRow)) : String :=
  match data with
  | none => ""
  | some [] => ""
  | some (first :: rest) =>
    let headers := first.own.map Prod.fst
    let headerRow := ",".intercalate headers
    let dataRows := (first :: rest).map (fun row =>
      ",".intercalate (headers.map (fun header => (row.read header).orEmpty.joinText hostText)))
    "\n".intercalate (headerRow :: dataRows)

end TestUtils

/-- The cell the specification describes for a row and a header key: the empty
text when the row has no value for the key or the value is falsy, otherwise
the text of the value. -/
def specCsvCell (hostText : ℚ → String) (row : CsvRow) (header : String) : String :=
  match row.own.lookup header with
  | none => ""
  | some CellValue.undefined => ""
  | some CellValue.null => ""
  | some (CellValue.bool b) => if b then "true" else ""
  | some (CellValue.number (JsNum.fin q)) =>
    if q = 0 then "" else (JsNum.fin q).numberToString hostText
  | some (CellValue.number JsNum.nan) => ""
  | some (CellValue.number x) => x.numberToString hostText
  | some (CellValue.bigint n) => if n = 0 then "" else toString n
  | some (CellValue.string s) => s
  | some (CellValue.object text) => text

/-- The text the specification describes for a non-empty list: the
comma-joined keys of the first element, then one line per element in input
order. -/
def specCsvContent (hostText : ℚ → String) (first : CsvRow) (rest : List CsvRow) : String :=
  "\n".intercalate
    (",".intercalate (first.own.map Prod.fst)
      :: (first :: rest).map (fun row =>
        ",".intercalate ((first.own.map Prod.fst).map (specCsvCell hostText row))))

/-! ## Sample inputs -/

/-- A test object that no `onTestBegin` call has stamped. -/
def unstartedTest : TestCase :=
  { title := "t", titlePath := ["suite", "t"], locationFile := "a.spec.js",
    _startTime := none }

/-- A result with status `passed`. -/
def passedResult : TestResult :=
  { status := "passed", error := none, retry := 0 }

/-- An `onTestEnd` call whose result carries Playwright's status
`interrupted`, for a test begun at clock reading `0` and ended at `5`. -/
def interruptedCall : PerformanceReporter.EndCall :=
  { now := 5
    test := PerformanceReporter.onTestBegin unstartedTest 0
    result := { status := "interrupted", error := none, retry := 0 } }

/-- A parsed pytest summary whose `totalDuration` is `d` and whose other
properties are absent. -/
def pytestWithDuration (d : Int) : PytestData :=
  { totalDuration := some d, totalTests := none, passed := none, failed := none }

/-- Three `onTestEnd` calls: a passed, a failed and a skipped test. -/
def threeCalls : List PerformanceReporter.EndCall :=
  [{ now := 100, test := PerformanceReporter.onTestBegin unstartedTest 0,
     result := passedResult },
   { now := 300, test := PerformanceReporter.onTestBegin unstartedTest 100,
     result := { status := "failed", error := some { message := some "boom" }, retry := 0 } },
   { now := 300, test := PerformanceReporter.onTestBegin unstartedTest 300,
     result := { status := "skipped", error := none, retry := 0 } }]

/-- A result with status `timedOut` that carries the error of the timeout. -/
def timedOutResult : TestResult :=
  { status := "timedOut"
    error := some { message := some "Test timeout of 30000ms exceeded." }
    retry := 0 }

/-- A host with the given pytest file and file-system calls that succeed unless
an error is given for the JSON write. -/
def sampleHost (file : PytestFile) (writeJsonError : Option String) : Host :=
  { expText := fun _ => ""
    isoTimestamp := "2025-01-01T00:00:00.000Z"
    pytestFile := file
    mkdirError := none
    writeJsonError := writeJsonError
    writeHtmlError := none }

/-- A random source whose every draw is `1/2` and whose sort leaves the array
as it is. -/
def halfSource : RandomSource :=
  { draw := fun _ => 1 / 2
    draw_nonneg := fun _ => by norm_num
    draw_lt_one := fun _ => by norm_num
    sorted := fun _ l => l }

/-- Two row objects for `generateCSVContent`; the second has a count of `0`
and no `note`. -/
def sampleRows : List CsvRow :=
  [objectLiteral [("name", CellValue.string "a"), ("count", CellValue.number (JsNum.fin 2)),
    ("note", CellValue.string "x")],
   objectLiteral [("name", CellValue.string "b"), ("count", CellValue.number (JsNum.fin 0))]]

/-- Two row objects whose first has a property named `constructor`, which the
second does not have. -/
def constructorRows : List CsvRow :=
  [objectLiteral [("name", CellValue.string "a"), ("constructor", CellValue.string "x")],
   objectLiteral [("name", CellValue.string "b")]]

/-- A failed result whose error has no message: what Playwright reports for a
test that threw a value that is not an `Error`. -/
def thrownValueResult : TestResult :=
  { status := "failed", error := some { message := none }, retry := 0 }

/-! ## Supporting lemmas -/

namespace PerformanceReporter

theorem countStatus_totalTests (r : PerformanceReporter) (status : String) :
    (countStatus r status).totalTests = r.totalTests := by
  unfold countStatus
  split_ifs <;> rfl

theorem countStatus_testResults (r : PerformanceReporter) (status : String) :
    (countStatus r status).testResults = r.testResults := by
  unfold countStatus
  split_ifs <;> rfl

theorem onTestEnd_testResults (r : PerformanceReporter) (cwdRelative : String → String)
    (now : Int) (test : TestCase) (result : TestResult) :
    (r.onTestEnd cwdRelative now test result).testResults
      = r.testResults ++ [mkTestResult cwdRelative now test result] := by
  simp [onTestEnd, countStatus_testResults]

theorem onTestEnd_totalTests (r : PerformanceReporter) (cwdRelative : String → String)
    (now : Int) (test : TestCase) (result : TestResult) :
    (r.onTestEnd cwdRelative now test result).totalTests = r.totalTests + 1 := by
  simp [onTestEnd, countStatus_totalTests]

theorem runFrom_cons (r : PerformanceReporter) (cwdRelative : String → String)
    (c : EndCall) (calls : List EndCall) :
    runFrom r cwdRelative (c :: calls)
      = runFrom (r.onTestEnd cwdRelative c.now c.test c.result) cwdRelative calls := rfl

theorem runFrom_totalTests_eq_length (cwdRelative : String → String) (calls : List EndCall) :
    ∀ r : PerformanceReporter, r.totalTests = r.testResults.length →
      (runFrom r cwdRelative calls).totalTests
        = (runFrom r cwdRelative calls).testResults.length := by
  induction calls with
  | nil => intro r h; exact h
  | cons c calls ih =>
    intro r h
    rw [runFrom_cons]
    apply ih
    rw [onTestEnd_totalTests, onTestEnd_testResults, h]
    simp

/-- On the statuses the `switch` has a `case` for, one call keeps the counters
summing to `totalTests`. -/
theorem onTestEnd_sum_of_handled (r : PerformanceReporter) (cwdRelative : String → String)
    (now : Int) (test : TestCase) (result : TestResult)
    (hs : handledStatus result.status)
    (h : r.totalTests = r.passedTests + r.failedTests + r.skippedTests) :
    (r.onTestEnd cwdRelative now test result).totalTests
      = (r.onTestEnd cwdRelative now test result).passedTests
        + (r.onTestEnd cwdRelative now test result).failedTests
        + (r.onTestEnd cwdRelative now test result).skippedTests := by
  unfold handledStatus at hs
  simp only [onTestEnd, countStatus]
  split_ifs with h1 h2 h3
  · simp only []; omega
  · simp only []; omega
  · simp only []; omega
  · exact absurd hs (by tauto)

theorem orDefault_zero (n : Int) : orDefault (some n) 0 = n := by
  simp only [orDefault]
  split_ifs with h
  · exact h.symm
  · rfl

theorem pytestDurationOf_some (pytestData : PytestData) (b : Int)
    (h : pytestData.totalDuration = some b) : pytestDurationOf pytestData = b := by
  unfold pytestDurationOf
  rw [h, orDefault_zero]

theorem playwrightFaster_some (pytestData : PytestData) (a b : Int)
    (h : pytestData.totalDuration = some b) :
    playwrightFaster pytestData a = decide (a < b) := by
  unfold playwrightFaster
  rw [pytestDurationOf_some pytestData b h]

end PerformanceReporter

theorem winnerBadge_ne_empty : winnerBadge ≠ "" := by decide

theorem specPercentDiff_nonneg (a b : Int) (ha : 0 ≤ a) :
    0 ≤ specPercentDiff a b := by
  unfold specPercentDiff
  have hm : (0 : ℚ) ≤ max (a : ℚ) b := le_max_of_le_left (by exact_mod_cast ha)
  positivity

theorem specPercentDiff_le (a b : Int) (ha : 0 ≤ a) (hb : 0 ≤ b) :
    specPercentDiff a b ≤ 100 := by
  unfold specPercentDiff
  have ha' : (0 : ℚ) ≤ a := by exact_mod_cast ha
  have hb' : (0 : ℚ) ≤ b := by exact_mod_cast hb
  have hm : (0 : ℚ) ≤ max (a : ℚ) b := le_max_of_le_left ha'
  have habs : |(a : ℚ) - b| ≤ max (a : ℚ) b := by
    rw [abs_le]
    constructor
    · have := le_max_right (a : ℚ) b
      linarith
    · have := le_max_left (a : ℚ) b
      linarith
  have : |(a : ℚ) - b| / max (a : ℚ) b ≤ 1 := div_le_one_of_le₀ habs hm
  linarith

/-- The integer chosen by `toFixed(2)` for a non-negative value is that value
rounded to two decimals. -/
theorem nearestHundredths_rounds (x : ℚ) (hx : 0 ≤ x) :
    roundsToHundredths (nearestHundredths x) x := by
  unfold roundsToHundredths nearestHundredths
  have hf : (0 : Int) ≤ ⌊x * 100 + 1 / 2⌋ := Int.floor_nonneg.mpr (by positivity)
  have hcast : ((⌊x * 100 + 1 / 2⌋.toNat : Nat) : ℚ) = ((⌊x * 100 + 1 / 2⌋ : Int) : ℚ) := by
    have := Int.toNat_of_nonneg hf
    exact_mod_cast this
  rw [hcast]
  have h1 := Int.floor_le (x * 100 + 1 / 2)
  have h2 := Int.lt_floor_add_one (x * 100 + 1 / 2)
  rw [abs_le]
  constructor <;> linarith

/-- A number of hundredths that rounds `50` is `5000`. -/
theorem roundsToHundredths_fifty (n : Nat) (h : roundsToHundredths n 50) : n = 5000 := by
  unfold roundsToHundredths at h
  rw [abs_le] at h
  have h1 : (4999 : ℚ) < n := by linarith [h.1]
  have h2 : (n : ℚ) < 5001 := by linarith [h.2]
  have h3 : 4999 < n := by exact_mod_cast h1
  have h4 : n < 5001 := by exact_mod_cast h2
  omega

/-- Every text `fixedText` assembles contains the decimal point. -/
theorem point_mem_fixedText (neg : Bool) (n : Nat) : '.' ∈ (fixedText neg n).data := by
  simp [fixedText, String.data_append]

/-- A number of hundredths that rounds `x` is the natural number `k` whenever
`100 * x` lies strictly within a half of `k`. -/
theorem roundsToHundredths_eq (n k : Nat) (x : ℚ) (h : roundsToHundredths n x)
    (h1 : (k : ℚ) - 1 / 2 < x * 100) (h2 : x * 100 < (k : ℚ) + 1 / 2) : n = k := by
  unfold roundsToHundredths at h
  rw [abs_le] at h
  have h3 : (n : ℚ) < (k : ℚ) + 1 := by linarith [h.2]
  have h4 : (k : ℚ) < (n : ℚ) + 1 := by linarith [h.1]
  have h5 : n < k + 1 := by exact_mod_cast h3
  have h6 : k < n + 1 := by exact_mod_cast h4
  omega

namespace PerformanceReporter

theorem countStatus_suiteStartTime (r : PerformanceReporter) (status : String) :
    (countStatus r status).suiteStartTime = r.suiteStartTime := by
  unfold countStatus
  split_ifs <;> rfl

theorem onTestEnd_suiteStartTime (r : PerformanceReporter) (cwdRelative : String → String)
    (now : Int) (test : TestCase) (result : TestResult) :
    (r.onTestEnd cwdRelative now test result).suiteStartTime = r.suiteStartTime := by
  simp [onTestEnd, countStatus_suiteStartTime]

theorem runFrom_suiteStartTime (cwdRelative : String → String) (calls : List EndCall) :
    ∀ r : PerformanceReporter,
      (runFrom r cwdRelative calls).suiteStartTime = r.suiteStartTime := by
  induction calls with
  | nil => intro r; rfl
  | cons c calls ih =>
    intro r
    rw [runFrom_cons, ih, onTestEnd_suiteStartTime]

/-- The records after a sequence of `onTestEnd` calls are the earlier records
followed by one record per call, in arrival order. -/
theorem runFrom_testResults (cwdRelative : String → String) (calls : List EndCall) :
    ∀ r : PerformanceReporter,
      (runFrom r cwdRelative calls).testResults
        = r.testResults
          ++ calls.map (fun c => mkTestResult cwdRelative c.now c.test c.result) := by
  induction calls with
  | nil => intro r; simp [runFrom]
  | cons c calls ih =>
    intro r
    rw [runFrom_cons, ih, onTestEnd_testResults]
    simp

end PerformanceReporter

namespace PerformanceReporter

/-- When creating the directory succeeds, `saveResults` attempts the JSON write
of `reportData` and lets its exception, if any, escape. -/
theorem saveResults_of_mkdir (r : PerformanceReporter) (host : Host) (d : Int)
    (hm : host.mkdirError = none) :
    r.saveResults host d
      = { attempted := [FsCall.mkdir "reports",
            FsCall.writeJson "reports/playwright-results.json"
              (r.reportData host.isoTimestamp d)]
          thrown := host.writeJsonError } := by
  simp [saveResults, hm]

/-- The method `generateHTMLReport` attempts exactly the HTML write of the
document that `createHTMLReport` returns. -/
theorem generateHTMLReport_eq (r : PerformanceReporter) (host : Host) (d : Int) :
    ∃ document : HtmlReport,
      r.createHTMLReport host d = Except.ok document
      ∧ r.generateHTMLReport host d
        = { attempted := [FsCall.writeHtml "reports/performance-comparison.html" document]
            thrown := host.writeHtmlError } :=
  ⟨_, rfl, rfl⟩

/-- The effect of `saveResults` followed by `generateHTMLReport` when creating
the directory and the JSON write succeed. -/
theorem writeReports_of_saved (r : PerformanceReporter) (host : Host) (d : Int)
    (hm : host.mkdirError = none) (hj : host.writeJsonError = none) :
    ∃ document : HtmlReport,
      r.createHTMLReport host d = Except.ok document
      ∧ r.writeReports host d
        = { attempted := [FsCall.mkdir "reports",
              FsCall.writeJson "reports/playwright-results.json"
                (r.reportData host.isoTimestamp d),
              FsCall.writeHtml "reports/performance-comparison.html" document]
            thrown := host.writeHtmlError } := by
  obtain ⟨document, hdoc, hgen⟩ := generateHTMLReport_eq r host d
  refine ⟨document, hdoc, ?_⟩
  simp [writeReports, saveResults_of_mkdir r host d hm, hj, hgen]

/-- The effect of `saveResults` followed by `generateHTMLReport` when the JSON
write throws. -/
theorem writeReports_of_json_error (r : PerformanceReporter) (host : Host) (d : Int)
    (e : String) (hm : host.mkdirError = none) (hj : host.writeJsonError = some e) :
    r.writeReports host d
      = { attempted := [FsCall.mkdir "reports",
            FsCall.writeJson "reports/playwright-results.json"
              (r.reportData host.isoTimestamp d)]
          thrown := some e } := by
  simp [writeReports, saveResults_of_mkdir r host d hm, hj]

end PerformanceReporter

/-! ### Decimal digits -/

/-- With enough fuel, `Nat.toDigitsCore` puts the digits of `n` in front of the
accumulator. -/
theorem toDigitsCore_eq_toDigits_append (n : Nat) :
    ∀ (fuel : Nat) (ds : List Char), n < fuel →
      Nat.toDigitsCore 10 fuel n ds = Nat.toDigits 10 n ++ ds := by
  induction n using Nat.strong_induction_on with
  | _ n ih =>
    intro fuel ds hfuel
    obtain ⟨f, rfl⟩ : ∃ f, fuel = f + 1 := ⟨fuel - 1, by omega⟩
    by_cases hz : n / 10 = 0
    · simp [Nat.toDigits, Nat.toDigitsCore, hz]
    · have hlt : n / 10 < n := by omega
      have h1 : Nat.toDigitsCore 10 (f + 1) n ds
          = Nat.toDigitsCore 10 f (n / 10) (Nat.digitChar (n % 10) :: ds) := by
        simp [Nat.toDigitsCore, hz]
      have h2 : Nat.toDigits 10 n
          = Nat.toDigitsCore 10 n (n / 10) [Nat.digitChar (n % 10)] := by
        simp [Nat.toDigits, Nat.toDigitsCore, hz]
      rw [h1, h2, ih (n / 10) hlt f _ (by omega), ih (n / 10) hlt n _ hlt]
      simp

/-- The digits of a number below ten. -/
theorem toDigits_of_lt_ten (n : Nat) (h : n < 10) :
    Nat.toDigits 10 n = [Nat.digitChar n] := by
  have hz : n / 10 = 0 := by omega
  have hm : n % 10 = n := by omega
  simp [Nat.toDigits, Nat.toDigitsCore, hz, hm]

/-- The digits of a number from ten on: those of its tenth, then its last
digit. -/
theorem toDigits_of_ten_le (n : Nat) (h : 10 ≤ n) :
    Nat.toDigits 10 n = Nat.toDigits 10 (n / 10) ++ [Nat.digitChar (n % 10)] := by
  have hz : n / 10 ≠ 0 := by omega
  have h2 : Nat.toDigits 10 n
      = Nat.toDigitsCore 10 n (n / 10) [Nat.digitChar (n % 10)] := by
    simp [Nat.toDigits, Nat.toDigitsCore, hz]
  rw [h2, toDigitsCore_eq_toDigits_append (n / 10) n _ (by omega)]

theorem digitChar_toNat (d : Nat) (h : d < 10) : (Nat.digitChar d).toNat - 48 = d := by
  interval_cases d <;> rfl

theorem digitChar_isDigit (d : Nat) (h : d < 10) : (Nat.digitChar d).isDigit = true := by
  interval_cases d <;> rfl

theorem decimalValue_append_singleton (cs : List Char) (c : Char) :
    decimalValue (cs ++ [c]) = decimalValue cs * 10 + (c.toNat - 48) := by
  simp [decimalValue, List.foldl_append]

/-- Reading the digits of `n` gives `n` back. -/
theorem decimalValue_toDigits (n : Nat) : decimalValue (Nat.toDigits 10 n) = n := by
  induction n using Nat.strong_induction_on with
  | _ n ih =>
    by_cases h : n < 10
    · rw [toDigits_of_lt_ten n h]
      simp [decimalValue, digitChar_toNat n h]
    · rw [toDigits_of_ten_le n (by omega), decimalValue_append_singleton,
        ih (n / 10) (by omega), digitChar_toNat (n % 10) (by omega)]
      omega

/-- Every character of the digits of `n` is a decimal digit. -/
theorem isDigit_of_mem_toDigits (n : Nat) :
    ∀ c ∈ Nat.toDigits 10 n, c.isDigit = true := by
  induction n using Nat.strong_induction_on with
  | _ n ih =>
    by_cases h : n < 10
    · rw [toDigits_of_lt_ten n h]
      intro c hc
      rw [List.mem_singleton] at hc
      rw [hc]
      exact digitChar_isDigit n h
    · rw [toDigits_of_ten_le n (by omega)]
      intro c hc
      rw [List.mem_append, List.mem_singleton] at hc
      rcases hc with hc | hc
      · exact ih (n / 10) (by omega) c hc
      · rw [hc]
        exact digitChar_isDigit (n % 10) (by omega)

theorem toString_nat_data (n : Nat) : (toString n).data = Nat.toDigits 10 n := rfl

/-- Leading zeros do not change the number a text denotes. -/
theorem decimalValue_replicate_zero_append (m : Nat) (cs : List Char) :
    decimalValue (List.replicate m '0' ++ cs) = decimalValue cs := by
  induction m with
  | zero => simp
  | succ m ih =>
    have h0 : ('0' : Char).toNat - 48 = 0 := by decide
    simp only [decimalValue, List.replicate_succ, List.cons_append, List.foldl_cons,
      Nat.zero_mul, Nat.zero_add, h0] at ih ⊢
    exact ih

theorem padStart_data (s : String) (targetLength : Nat) (fill : Char) :
    (padStart s targetLength fill).data
      = List.replicate (targetLength - s.length) fill ++ s.data := by
  simp [padStart, String.data_append]

/-- The number denoted by a decimal text padded with zeros. -/
theorem decimalValue_padStart_toString (n targetLength : Nat) :
    decimalValue (padStart (toString n) targetLength '0').data = n := by
  rw [padStart_data, decimalValue_replicate_zero_append, toString_nat_data,
    decimalValue_toDigits]

/-! ### The random source -/

/-- The index `Math.floor(Math.random() * n)` is below `n`. -/
theorem RandomSource.floorTimes_lt (rs : RandomSource) (k n : Nat) (hn : 0 < n) :
    rs.floorTimes k n < n := by
  unfold RandomSource.floorTimes
  have h0 := rs.draw_nonneg k
  have h1 := rs.draw_lt_one k
  have hnq : (0 : ℚ) < (n : ℚ) := by exact_mod_cast hn
  have hlt : rs.draw k * n < n := by nlinarith
  have hfl : ⌊rs.draw k * (n : ℚ)⌋ < (n : Int) := by
    rw [Int.floor_lt]
    exact_mod_cast hlt
  have hnn : (0 : Int) ≤ ⌊rs.draw k * (n : ℚ)⌋ := Int.floor_nonneg.mpr (by positivity)
  omega

theorem truthyString_of_ne_empty (s : String) (h : s ≠ "") :
    truthyString (some s) = some s := by
  simp [truthyString, h]

/-! ### Bulk users -/

namespace TestDataHelper

theorem bulkUserId_data (i : Nat) :
    (bulkUserId i).data = "BULK".data ++ (padStart (toString (i + 1)) 3 '0').data := by
  simp [bulkUserId, String.data_append]

theorem bulkUserId_ne_empty (i : Nat) : bulkUserId i ≠ "" := by
  intro h
  have hd := congrArg String.data h
  rw [bulkUserId_data] at hd
  simp at hd

/-- The counter can be read back from the user id. -/
theorem decimalValue_bulkUserId (i : Nat) :
    decimalValue ((bulkUserId i).data.drop 4) = i + 1 := by
  rw [bulkUserId_data]
  have h4 : "BULK".data.length = 4 := by decide
  rw [List.drop_left' h4, decimalValue_padStart_toString]

theorem bulkUserId_injective : Function.Injective bulkUserId := by
  intro i j h
  have hi := decimalValue_bulkUserId i
  rw [h, decimalValue_bulkUserId j] at hi
  omega

/-- A user created with a given non-empty id carries that id. -/
theorem createTestUser_id (rs : RandomSource) (toLowerCase : String → String)
    (options : UserOptions) (k : Nat) (userId : String) (h : options.userId = some userId)
    (hne : userId ≠ "") :
    (createTestUser rs toLowerCase options k).1.id = userId := by
  simp [createTestUser, h, truthyString_of_ne_empty userId hne]

/-- The ids of the users of the loop are the ids of the counters, in order. -/
theorem bulkLoop_ids (rs : RandomSource) (toLowerCase : String → String) (remaining : Nat) :
    ∀ i k : Nat, (bulkLoop rs toLowerCase remaining i k).map TestUser.id
      = (List.range remaining).map (fun j => bulkUserId (i + j)) := by
  induction remaining with
  | zero => intro i k; simp [bulkLoop]
  | succ n ih =>
    intro i k
    rw [List.range_succ_eq_map]
    simp only [bulkLoop, List.map_cons, List.map_map, Nat.add_zero]
    rw [ih (i + 1), createTestUser_id rs toLowerCase _ k (bulkUserId i) rfl
      (bulkUserId_ne_empty i)]
    congr 1
    apply List.map_congr_left
    intro j _
    simp only [Function.comp_apply]
    congr 1
    omega

end TestDataHelper

/-! ### Random strings and staff ids -/

namespace TestUtils

theorem chars_length : chars.data.length = 62 := by decide

/-- An index inside `chars` reads one character of `chars`. -/
theorem charAt_chars (i : Nat) (h : i < 62) :
    ∃ c : Char, c ∈ chars.data ∧ (charAt chars i).data = [c] := by
  have hi : i < chars.data.length := by rw [chars_length]; exact h
  refine ⟨chars.data[i], List.getElem_mem hi, ?_⟩
  simp [charAt, List.getElem?_eq_getElem hi, String.singleton]

/-- The loop appends one character of `chars` per round. -/
theorem randomStringLoop_data (rs : RandomSource) (remaining : Nat) :
    ∀ (k : Nat) (result : String),
      ∃ cs : List Char,
        (randomStringLoop rs remaining k result).data = result.data ++ cs
        ∧ cs.length = remaining ∧ ∀ c ∈ cs, c ∈ chars.data := by
  induction remaining with
  | zero =>
    intro k result
    exact ⟨[], by simp [randomStringLoop], rfl, by simp⟩
  | succ n ih =>
    intro k result
    have hidx : rs.floorTimes k chars.length < 62 := by
      have hl : chars.length = 62 := chars_length
      rw [hl]
      exact rs.floorTimes_lt k 62 (by decide)
    obtain ⟨c, hc, hcd⟩ := charAt_chars _ hidx
    obtain ⟨cs, hdata, hlen, hmem⟩ :=
      ih (k + 1) (result ++ charAt chars (rs.floorTimes k chars.length))
    refine ⟨c :: cs, ?_, by simp [hlen], ?_⟩
    · simp only [randomStringLoop]
      rw [hdata, String.data_append, hcd]
      simp
    · intro x hx
      rcases List.mem_cons.mp hx with hx | hx
      · rw [hx]; exact hc
      · exact hmem x hx

end TestUtils

/-! ### Doubles -/

namespace Binary64

theorem pow2_eq (e : Int) : pow2 e = (2 : ℚ) ^ e := by
  unfold pow2
  split_ifs with h
  · have he : e = (e.toNat : Int) := (Int.toNat_of_nonneg h).symm
    conv_rhs => rw [he]
    rw [zpow_natCast]
    push_cast
    rfl
  · have hn : (0 : Int) ≤ -e := by omega
    have he : e = -((-e).toNat : Int) := by rw [Int.toNat_of_nonneg hn]; ring
    conv_rhs => rw [he]
    rw [zpow_neg, zpow_natCast]
    push_cast
    rw [one_div]

theorem pow2_pos (e : Int) : 0 < pow2 e := by
  rw [pow2_eq]
  positivity

theorem pow2_sub (a b : Int) : pow2 (a - b) = pow2 a / pow2 b := by
  rw [pow2_eq, pow2_eq, pow2_eq, zpow_sub₀ (by norm_num)]

theorem pow2_mono {a b : Int} (h : a ≤ b) : pow2 a ≤ pow2 b := by
  rw [pow2_eq, pow2_eq]
  exact zpow_le_zpow_right₀ (by norm_num) h

theorem log2Fuel_eq (fuel : Nat) : ∀ n : Nat, n ≤ fuel → log2Fuel fuel n = Nat.log2 n := by
  induction fuel with
  | zero =>
    intro n hn
    have h0 : n = 0 := by omega
    subst h0
    rw [Nat.log2]
    simp [log2Fuel]
  | succ f ih =>
    intro n hn
    rw [Nat.log2]
    simp only [log2Fuel]
    split_ifs with h
    · rw [ih (n / 2) (by omega)]
    · rfl

theorem log2_eq (n : Nat) : log2 n = Nat.log2 n :=
  log2Fuel_eq n n (Nat.le_refl n)

/-- The exponent found for a non-zero value is not too large. -/
theorem pow2_exponent_le (x : ℚ) (hx : x ≠ 0) : pow2 (exponent x) ≤ |x| := by
  unfold exponent
  simp only
  split_ifs with h
  · exact h
  · have hnum : x.num.natAbs ≠ 0 := by
      simpa using (Rat.num_ne_zero.mpr hx)
    have hden : x.den ≠ 0 := x.den_nz
    have h1 : 2 ^ Nat.log2 x.num.natAbs ≤ x.num.natAbs := Nat.log2_self_le hnum
    have h2 : x.den < 2 ^ (Nat.log2 x.den + 1) := Nat.lt_log2_self
    simp only [log2_eq] at h ⊢
    have habs : |x| = (x.num.natAbs : ℚ) / (x.den : ℚ) := by
      conv_lhs => rw [← Rat.num_div_den x]
      rw [abs_div, Nat.abs_cast, Nat.cast_natAbs, Int.cast_abs]
    rw [habs]
    have hdpos : (0 : ℚ) < (x.den : ℚ) := by exact_mod_cast Nat.pos_of_ne_zero hden
    rw [le_div_iff₀ hdpos]
    have e1 : ((Nat.log2 x.num.natAbs : Int) - (Nat.log2 x.den : Int) - 1)
        = (Nat.log2 x.num.natAbs : Int) - ((Nat.log2 x.den + 1 : Nat) : Int) := by
      push_cast; ring
    rw [e1, pow2_sub, pow2_eq, pow2_eq, zpow_natCast, zpow_natCast]
    have h1q : ((2 : ℚ) ^ Nat.log2 x.num.natAbs) ≤ (x.num.natAbs : ℚ) := by exact_mod_cast h1
    have h2q : (x.den : ℚ) ≤ (2 : ℚ) ^ (Nat.log2 x.den + 1) := by exact_mod_cast h2.le
    have hp : (0 : ℚ) < (2 : ℚ) ^ (Nat.log2 x.den + 1) := by positivity
    calc (2 : ℚ) ^ Nat.log2 x.num.natAbs / (2 : ℚ) ^ (Nat.log2 x.den + 1) * (x.den : ℚ)
        ≤ (2 : ℚ) ^ Nat.log2 x.num.natAbs / (2 : ℚ) ^ (Nat.log2 x.den + 1)
            * (2 : ℚ) ^ (Nat.log2 x.den + 1) := by
          apply mul_le_mul_of_nonneg_left h2q
          positivity
      _ = (2 : ℚ) ^ Nat.log2 x.num.natAbs := by field_simp
      _ ≤ (x.num.natAbs : ℚ) := h1q

theorem roundHalfEven_close (m : ℚ) : |((roundHalfEven m : Int) : ℚ) - m| ≤ 1 / 2 := by
  have h1 := Int.floor_le m
  have h2 := Int.lt_floor_add_one m
  unfold roundHalfEven
  split_ifs with ha hb hc
  · rw [abs_le]; constructor <;> linarith
  · rw [abs_le]; push_cast; constructor <;> linarith
  · rw [abs_le]; constructor <;> linarith
  · rw [abs_le]; push_cast; constructor <;> linarith

/-- Relative error of rounding a value of the normal range. -/
theorem roundMagnitude_close (x : ℚ) (hx : 0 < x) (hmin : pow2 (-1022) ≤ x) :
    |roundMagnitude x - x| ≤ x / 2 ^ 53 := by
  have hE : pow2 (max (exponent x) (-1022)) ≤ x := by
    rcases le_total (exponent x) (-1022) with h | h
    · rw [max_eq_right h]; exact hmin
    · rw [max_eq_left h]
      have := pow2_exponent_le x hx.ne'
      rwa [abs_of_pos hx] at this
  unfold roundMagnitude
  simp only
  set E := max (exponent x) (-1022) with hEdef
  have hq : 0 < pow2 (E - 52) := pow2_pos _
  have hqe : pow2 (E - 52) = pow2 E / 2 ^ 52 := by
    rw [pow2_sub]
    congr 1
  have hclose := roundHalfEven_close (x / pow2 (E - 52))
  have hfac : ((roundHalfEven (x / pow2 (E - 52)) : Int) : ℚ) * pow2 (E - 52) - x
      = (((roundHalfEven (x / pow2 (E - 52)) : Int) : ℚ) - x / pow2 (E - 52))
          * pow2 (E - 52) := by
    field_simp
  rw [hfac, abs_mul, abs_of_pos hq]
  calc |((roundHalfEven (x / pow2 (E - 52)) : Int) : ℚ) - x / pow2 (E - 52)| * pow2 (E - 52)
      ≤ 1 / 2 * pow2 (E - 52) := mul_le_mul_of_nonneg_right hclose hq.le
    _ = pow2 E / 2 ^ 53 := by rw [hqe]; ring
    _ ≤ x / 2 ^ 53 := by
      apply div_le_div_of_nonneg_right hE
      positivity

/-- Rounding a non-zero value of the normal range gives a finite number with a
relative error of at most `2^-53`. -/
theorem nearest_close (x : ℚ) (hx : x ≠ 0) (hmin : pow2 (-1022) ≤ |x|)
    (hmax : |x| ≤ pow2 1023) :
    ∃ y : ℚ, nearest x = JsNum.fin y ∧ |y - x| ≤ |x| / 2 ^ 53 := by
  have hpos : 0 < |x| := abs_pos.mpr hx
  have hc := roundMagnitude_close |x| hpos hmin
  have hlt : ¬ pow2 1024 ≤ roundMagnitude |x| := by
    rw [not_le]
    have h1 : roundMagnitude |x| ≤ |x| + |x| / 2 ^ 53 := by
      have := (abs_le.mp hc).2
      linarith
    have h2 : pow2 1024 = 2 * pow2 1023 := by
      rw [pow2_eq, pow2_eq]
      norm_num
    have h3 : |x| / 2 ^ 53 < |x| := by
      apply div_lt_self hpos
      norm_num
    have hp := pow2_pos 1023
    linarith
  unfold nearest
  rw [if_neg hx, if_neg hlt]
  rcases lt_or_gt_of_ne hx with hneg | hposx
  · rw [if_neg (not_lt.mpr hneg.le)]
    refine ⟨-roundMagnitude |x|, rfl, ?_⟩
    have hax : |x| = -x := abs_of_neg hneg
    have : -roundMagnitude |x| - x = -(roundMagnitude |x| - |x|) := by rw [hax]; ring
    rw [this, abs_neg]
    exact hc
  · rw [if_pos hposx]
    refine ⟨roundMagnitude |x|, rfl, ?_⟩
    have hax : |x| = x := abs_of_pos hposx
    have : roundMagnitude |x| - x = roundMagnitude |x| - |x| := by rw [hax]
    rw [this]
    exact hc

theorem nearest_zero : nearest 0 = JsNum.fin 0 := by
  simp [nearest]

end Binary64

/-! ### Rounded quotients and `toFixed(2)` -/

/-- Rounding a value that is zero or lies between `2^-60` and `2^60` in
magnitude gives a finite number with a relative error of at most `2^-53`. -/
theorem Binary64.nearest_close_mid (x : ℚ)
    (h : x = 0 ∨ ((1 : ℚ) / 2 ^ 60 ≤ |x| ∧ |x| ≤ 2 ^ 60)) :
    ∃ y : ℚ, Binary64.nearest x = JsNum.fin y ∧ |y - x| ≤ |x| / 2 ^ 53 := by
  rcases h with h | ⟨hlo, hhi⟩
  · subst h
    exact ⟨0, Binary64.nearest_zero, by simp⟩
  · have hx : x ≠ 0 := by
      intro h0
      rw [h0, abs_zero] at hlo
      have : (0 : ℚ) < 1 / 2 ^ 60 := by positivity
      linarith
    apply Binary64.nearest_close x hx
    · have h1 : Binary64.pow2 (-1022) ≤ Binary64.pow2 (-60) := Binary64.pow2_mono (by decide)
      have h2 : Binary64.pow2 (-60) = 1 / 2 ^ 60 := by
        rw [Binary64.pow2_eq]
        norm_num [zpow_neg]
      linarith
    · have h1 : Binary64.pow2 60 ≤ Binary64.pow2 1023 := Binary64.pow2_mono (by decide)
      have h2 : Binary64.pow2 60 = 2 ^ 60 := by
        rw [Binary64.pow2_eq]
        norm_num
      linarith

/-- A rounded value has the sign of the exact one. -/
theorem neg_iff_of_close (x y : ℚ) (h : |y - x| ≤ |x| / 2 ^ 53) : y < 0 ↔ x < 0 := by
  have hle := abs_le.mp h
  constructor
  · intro hy
    by_contra hx
    push_neg at hx
    rw [abs_of_nonneg hx] at hle
    have : x / 2 ^ 53 ≤ x := div_le_self hx (by norm_num)
    linarith [hle.1]
  · intro hx
    rw [abs_of_neg hx] at hle
    have : -x / 2 ^ 53 < -x := div_lt_self (by linarith) (by norm_num)
    linarith [hle.2]

/-- The text of `toFixed(2)` on a finite double of magnitude below `10^21`. -/
theorem toFixed2_fin (expText : ℚ → String) (y : ℚ) (h : |y| < 10 ^ 21) :
    toFixed2 expText (JsNum.fin y) = fixedText (decide (y < 0)) (nearestHundredths |y|) := by
  simp only [toFixed2]
  rw [if_neg (not_le.mpr h)]

/-- The integer `toFixed(2)` chooses for `y` rounds a nearby value `p` as well,
when `100 * p` is a multiple of `1 / T` and `y` is closer to `p` than
`1 / (200 * T)`. -/
theorem nearestHundredths_rounds_of_close (p y : ℚ) (T : Nat) (k : Int) (hT : 0 < T)
    (hy : 0 ≤ y) (hk : 100 * p * (T : ℚ) = (k : ℚ)) (hclose : |y - p| * (200 * (T : ℚ)) < 1) :
    roundsToHundredths (nearestHundredths y) p := by
  unfold roundsToHundredths nearestHundredths
  have hTq : (0 : ℚ) < (T : ℚ) := by exact_mod_cast hT
  have hf : (0 : Int) ≤ ⌊y * 100 + 1 / 2⌋ := Int.floor_nonneg.mpr (by positivity)
  have hcast : ((⌊y * 100 + 1 / 2⌋.toNat : Nat) : ℚ) = ((⌊y * 100 + 1 / 2⌋ : Int) : ℚ) := by
    have := Int.toNat_of_nonneg hf
    exact_mod_cast this
  rw [hcast]
  set N : Int := ⌊y * 100 + 1 / 2⌋ with hN
  have h1 : (N : ℚ) ≤ y * 100 + 1 / 2 := Int.floor_le _
  have h2 : y * 100 + 1 / 2 < (N : ℚ) + 1 := Int.lt_floor_add_one _
  have habs := abs_le.mp (le_refl |y - p|)
  have hd1 : (T : ℚ) * (y - p) ≤ (T : ℚ) * |y - p| :=
    mul_le_mul_of_nonneg_left (le_abs_self _) hTq.le
  have hd2 : -((T : ℚ) * |y - p|) ≤ (T : ℚ) * (y - p) := by
    have := mul_le_mul_of_nonneg_left (neg_abs_le (y - p)) hTq.le
    linarith
  have hm1 : (T : ℚ) * (N : ℚ) ≤ (T : ℚ) * (y * 100 + 1 / 2) :=
    mul_le_mul_of_nonneg_left h1 hTq.le
  have hm2 : (T : ℚ) * (y * 100 + 1 / 2) < (T : ℚ) * ((N : ℚ) + 1) :=
    mul_lt_mul_of_pos_left h2 hTq
  -- the integer `J = 2 * (N * T - k)` equals `2 * T * (N - 100 * p)`
  have hJ : ((2 * (N * (T : Int) - k) : Int) : ℚ) = 2 * (T : ℚ) * (N : ℚ) - 2 * (100 * p * T) := by
    push_cast
    rw [hk]
    ring
  have hJlt : ((2 * (N * (T : Int) - k) : Int) : ℚ) < (T : ℚ) + 1 := by
    rw [hJ]
    nlinarith
  have hJgt : -((T : ℚ) + 1) < ((2 * (N * (T : Int) - k) : Int) : ℚ) := by
    rw [hJ]
    nlinarith
  have hJle : (2 * (N * (T : Int) - k) : Int) ≤ (T : Int) := by
    have : (2 * (N * (T : Int) - k) : Int) < (T : Int) + 1 := by exact_mod_cast hJlt
    omega
  have hJge : -(T : Int) ≤ (2 * (N * (T : Int) - k) : Int) := by
    have : -((T : Int) + 1) < (2 * (N * (T : Int) - k) : Int) := by exact_mod_cast hJgt
    omega
  have hJleq : 2 * (T : ℚ) * (N : ℚ) - 2 * (100 * p * T) ≤ (T : ℚ) := by
    rw [← hJ]
    exact_mod_cast hJle
  have hJgeq : -(T : ℚ) ≤ 2 * (T : ℚ) * (N : ℚ) - 2 * (100 * p * T) := by
    rw [← hJ]
    exact_mod_cast hJge
  rw [abs_le]
  constructor
  · have : (T : ℚ) * (-(1 / 200)) ≤ (T : ℚ) * ((N : ℚ) / 100 - p) := by nlinarith
    exact le_of_mul_le_mul_left this hTq
  · have : (T : ℚ) * ((N : ℚ) / 100 - p) ≤ (T : ℚ) * (1 / 200) := by nlinarith
    exact le_of_mul_le_mul_left this hTq
/-- With at least one test, a counter below `2^53` and a total duration below
`2^53 / 200` in magnitude, `avgDuration` is the two-decimal text of a number
of hundredths that rounds the exact quotient. -/
theorem avgDuration_rounds (r : PerformanceReporter) (expText : ℚ → String) (d : Int)
    (ht : 0 < r.totalTests) (hts : r.totalTests < 2 ^ 53) (hd : 200 * |d| < 2 ^ 53) :
    ∃ n : Nat,
      r.avgDuration expText d
        = PerformanceReporter.AvgDuration.text (fixedText (decide (d < 0)) n)
      ∧ roundsToHundredths n (|(d : ℚ)| / (r.totalTests : ℚ)) := by
  have htq : (0 : ℚ) < (r.totalTests : ℚ) := by exact_mod_cast ht
  have ht1 : (1 : ℚ) ≤ (r.totalTests : ℚ) := by exact_mod_cast ht
  have htsq : (r.totalTests : ℚ) < 2 ^ 53 := by exact_mod_cast hts
  have hdq : 200 * |(d : ℚ)| < 2 ^ 53 := by exact_mod_cast hd
  have habs : |(d : ℚ) / (r.totalTests : ℚ)| = |(d : ℚ)| / (r.totalTests : ℚ) := by
    rw [abs_div, abs_of_pos htq]
  have hle : |(d : ℚ)| / (r.totalTests : ℚ) ≤ |(d : ℚ)| := div_le_self (abs_nonneg _) ht1
  have hrange : (d : ℚ) / (r.totalTests : ℚ) = 0
      ∨ ((1 : ℚ) / 2 ^ 60 ≤ |(d : ℚ) / (r.totalTests : ℚ)|
        ∧ |(d : ℚ) / (r.totalTests : ℚ)| ≤ 2 ^ 60) := by
    by_cases hd0 : d = 0
    · left; simp [hd0]
    · right
      have hd1 : (1 : ℚ) ≤ |(d : ℚ)| := by
        have : (1 : Int) ≤ |d| := Int.one_le_abs hd0
        exact_mod_cast this
      rw [habs]
      constructor
      · rw [div_le_div_iff₀ (by positivity) htq]
        nlinarith
      · have : |(d : ℚ)| ≤ 2 ^ 60 := by
          have h53 : (2 : ℚ) ^ 53 ≤ 2 ^ 60 := by norm_num
          nlinarith [abs_nonneg (d : ℚ)]
        linarith
  obtain ⟨y, hy, hclose⟩ := Binary64.nearest_close_mid _ hrange
  have hsign : (y < 0) ↔ d < 0 := by
    rw [neg_iff_of_close _ y hclose, div_neg_iff]
    constructor
    · rintro (⟨_, h2⟩ | ⟨h1, _⟩)
      · exact absurd h2 (not_lt.mpr htq.le)
      · exact_mod_cast h1
    · intro h
      exact Or.inr ⟨by exact_mod_cast h, htq⟩
  have hyabs : |y| - |(d : ℚ)| / (r.totalTests : ℚ) ≤ |(d : ℚ)| / (r.totalTests : ℚ) / 2 ^ 53 := by
    have h1 := abs_sub_abs_le_abs_sub y ((d : ℚ) / (r.totalTests : ℚ))
    rw [habs] at h1 hclose
    linarith
  have hsmall : |(d : ℚ)| / (r.totalTests : ℚ) / 2 ^ 53 ≤ 1 := by
    rw [div_le_one (by positivity)]
    nlinarith [abs_nonneg (d : ℚ)]
  have hylt : |y| < 10 ^ 21 := by
    have : |(d : ℚ)| < 2 ^ 53 := by nlinarith [abs_nonneg (d : ℚ)]
    have h21 : (2 : ℚ) ^ 53 + 1 < 10 ^ 21 := by norm_num
    linarith
  refine ⟨nearestHundredths |y|, ?_, ?_⟩
  · simp only [PerformanceReporter.avgDuration, gt_iff_lt, ht, if_true, JsNum.div,
      if_neg htq.ne', hy, toFixed2_fin expText y hylt, hsign]
  · apply nearestHundredths_rounds_of_close (|(d : ℚ)| / (r.totalTests : ℚ)) |y| r.totalTests
      (100 * |d|) ht (abs_nonneg y)
    · push_cast
      field_simp
    · have h1 : |(|y| - |(d : ℚ)| / (r.totalTests : ℚ))|
          ≤ |(d : ℚ)| / (r.totalTests : ℚ) / 2 ^ 53 := by
        have h2 := abs_abs_sub_abs_le_abs_sub y ((d : ℚ) / (r.totalTests : ℚ))
        rw [habs] at h2 hclose
        linarith
      have h3 : |(d : ℚ)| / (r.totalTests : ℚ) / 2 ^ 53 * (200 * (r.totalTests : ℚ))
          = 200 * |(d : ℚ)| / 2 ^ 53 := by
        field_simp
        ring
      have h4 : 200 * |(d : ℚ)| / 2 ^ 53 < 1 := by
        rw [div_lt_one (by positivity)]
        exact hdq
      calc |(|y| - |(d : ℚ)| / (r.totalTests : ℚ))| * (200 * (r.totalTests : ℚ))
          ≤ |(d : ℚ)| / (r.totalTests : ℚ) / 2 ^ 53 * (200 * (r.totalTests : ℚ)) :=
            mul_le_mul_of_nonneg_right h1 (by positivity)
        _ = 200 * |(d : ℚ)| / 2 ^ 53 := h3
        _ < 1 := h4
/-- A value within a relative error below one of `x` has the sign of `x`. -/
theorem neg_iff_of_rel_close (x y c : ℚ) (hc1 : c < 1)
    (h : |y - x| ≤ |x| * c) : y < 0 ↔ x < 0 := by
  have hle := abs_le.mp h
  constructor
  · intro hy
    by_contra hx
    push_neg at hx
    rw [abs_of_nonneg hx] at hle
    nlinarith [hle.1]
  · intro hx
    rw [abs_of_neg hx] at hle
    nlinarith [hle.2]

/-- The double computed by `(D / M) * 100` for an integer `D` from `0` to
`2^53` and a non-zero integer `M` below `2^53` in magnitude is finite and
within a relative error of `2/2^53 + 1/2^106` of the exact value. -/
theorem percent_doubles (D M : Int) (hD0 : 0 ≤ D) (hD : D ≤ 2 ^ 53) (hM : M ≠ 0)
    (hMs : |M| < 2 ^ 53) :
    ∃ y : ℚ, (JsNum.div (D : ℚ) (M : ℚ)).mulPos 100 = JsNum.fin y
      ∧ |y - (D : ℚ) / (M : ℚ) * 100|
          ≤ |(D : ℚ) / (M : ℚ) * 100| * (2 / 2 ^ 53 + 1 / 2 ^ 106) := by
  have hMq : (M : ℚ) ≠ 0 := by exact_mod_cast hM
  have hMabs : (1 : ℚ) ≤ |(M : ℚ)| := by
    have : (1 : Int) ≤ |M| := Int.one_le_abs hM
    exact_mod_cast this
  have hMlt : |(M : ℚ)| < 2 ^ 53 := by exact_mod_cast hMs
  have hDq0 : (0 : ℚ) ≤ (D : ℚ) := by exact_mod_cast hD0
  have hDq : (D : ℚ) ≤ 2 ^ 53 := by exact_mod_cast hD
  have hxabs : |(D : ℚ) / (M : ℚ)| = (D : ℚ) / |(M : ℚ)| := by
    rw [abs_div, abs_of_nonneg hDq0]
  have hMpos : (0 : ℚ) < |(M : ℚ)| := by linarith
  have hr1 : (D : ℚ) / (M : ℚ) = 0
      ∨ ((1 : ℚ) / 2 ^ 60 ≤ |(D : ℚ) / (M : ℚ)| ∧ |(D : ℚ) / (M : ℚ)| ≤ 2 ^ 60) := by
    by_cases hd0 : D = 0
    · left; simp [hd0]
    · right
      have hd1 : (1 : ℚ) ≤ (D : ℚ) := by
        have : (1 : Int) ≤ D := by omega
        exact_mod_cast this
      rw [hxabs]
      constructor
      · rw [div_le_div_iff₀ (by positivity) hMpos]
        nlinarith
      · have h1 : (D : ℚ) / |(M : ℚ)| ≤ (D : ℚ) := div_le_self hDq0 hMabs
        have h53 : (2 : ℚ) ^ 53 ≤ 2 ^ 60 := by norm_num
        linarith
  obtain ⟨y1, hy1, hc1⟩ := Binary64.nearest_close_mid _ hr1
  have hxle : |(D : ℚ) / (M : ℚ)| ≤ 2 ^ 53 := by
    rw [hxabs]
    have h1 : (D : ℚ) / |(M : ℚ)| ≤ (D : ℚ) := div_le_self hDq0 hMabs
    linarith
  have hu : (0 : ℚ) < 1 / 2 ^ 53 := by positivity
  have hy1hi : |y1| ≤ |(D : ℚ) / (M : ℚ)| + |(D : ℚ) / (M : ℚ)| / 2 ^ 53 := by
    have := abs_sub_abs_le_abs_sub y1 ((D : ℚ) / (M : ℚ))
    linarith
  have hy1lo : |(D : ℚ) / (M : ℚ)| - |(D : ℚ) / (M : ℚ)| / 2 ^ 53 ≤ |y1| := by
    have := abs_sub_abs_le_abs_sub ((D : ℚ) / (M : ℚ)) y1
    rw [abs_sub_comm] at this
    linarith
  have hr2 : y1 * 100 = 0
      ∨ ((1 : ℚ) / 2 ^ 60 ≤ |y1 * 100| ∧ |y1 * 100| ≤ 2 ^ 60) := by
    rcases hr1 with h0 | ⟨hlo, hhi⟩
    · left
      rw [h0, abs_zero, zero_div] at hc1
      have hz : y1 - 0 = 0 := abs_nonpos_iff.mp hc1
      have hy0 : y1 = 0 := by linarith
      rw [hy0]; ring
    · right
      have habs100 : |y1 * 100| = |y1| * 100 := by
        rw [abs_mul]; norm_num
      rw [habs100]
      have hx53 : (1 : ℚ) / 2 ^ 53 ≤ |(D : ℚ) / (M : ℚ)| := by
        rw [hxabs]
        have hd1 : (1 : ℚ) ≤ (D : ℚ) := by
          by_contra hcon
          push_neg at hcon
          have hD1 : D < 1 := by exact_mod_cast hcon
          have hD00 : D = 0 := by omega
          rw [hD00] at hlo
          simp at hlo
          have : (0 : ℚ) < (2 ^ 60)⁻¹ := by positivity
          linarith
        rw [div_le_div_iff₀ (by positivity) hMpos]
        nlinarith
      constructor
      · have h1 : (1 : ℚ) / 2 ^ 53 / 2 ≤ |y1| := by
          have hhalf : |(D : ℚ) / (M : ℚ)| / 2 ^ 53 ≤ |(D : ℚ) / (M : ℚ)| / 2 := by
            apply div_le_div_of_nonneg_left (abs_nonneg _) (by norm_num) (by norm_num)
          linarith
        have h2 : (1 : ℚ) / 2 ^ 60 ≤ 1 / 2 ^ 53 / 2 * 100 := by norm_num
        linarith
      · have h1 : |(D : ℚ) / (M : ℚ)| / 2 ^ 53 ≤ 1 := by
          rw [div_le_one (by positivity)]
          exact hxle
        have h2 : ((2 : ℚ) ^ 53 + 1) * 100 ≤ 2 ^ 60 := by norm_num
        nlinarith
  obtain ⟨y2, hy2, hc2⟩ := Binary64.nearest_close_mid _ hr2
  refine ⟨y2, ?_, ?_⟩
  · simp only [JsNum.div, if_neg hMq, hy1, JsNum.mulPos, hy2]
  · have habs100 : |y1 * 100| = |y1| * 100 := by
      rw [abs_mul]; norm_num
    have hX : |(D : ℚ) / (M : ℚ) * 100| = |(D : ℚ) / (M : ℚ)| * 100 := by
      rw [abs_mul]; norm_num
    have htri : |y2 - (D : ℚ) / (M : ℚ) * 100|
        ≤ |y2 - y1 * 100| + |y1 - (D : ℚ) / (M : ℚ)| * 100 := by
      have h1 : y2 - (D : ℚ) / (M : ℚ) * 100
          = (y2 - y1 * 100) + (y1 - (D : ℚ) / (M : ℚ)) * 100 := by ring
      rw [h1]
      have h2 := abs_add (y2 - y1 * 100) ((y1 - (D : ℚ) / (M : ℚ)) * 100)
      have h3 : |(y1 - (D : ℚ) / (M : ℚ)) * 100| = |y1 - (D : ℚ) / (M : ℚ)| * 100 := by
        rw [abs_mul]; norm_num
      linarith
    rw [habs100] at hc2
    rw [hX]
    have hx0 := abs_nonneg ((D : ℚ) / (M : ℚ))
    have e1 : |y1| * 100 / 2 ^ 53
        ≤ (|(D : ℚ) / (M : ℚ)| + |(D : ℚ) / (M : ℚ)| / 2 ^ 53) * 100 / 2 ^ 53 := by
      apply div_le_div_of_nonneg_right _ (by positivity)
      nlinarith
    have e2 : (|(D : ℚ) / (M : ℚ)| + |(D : ℚ) / (M : ℚ)| / 2 ^ 53) * 100 / 2 ^ 53
        + |(D : ℚ) / (M : ℚ)| / 2 ^ 53 * 100
        = |(D : ℚ) / (M : ℚ)| * 100 * (2 / 2 ^ 53 + 1 / 2 ^ 106) := by
      ring
    have e3 : |y1 - (D : ℚ) / (M : ℚ)| * 100 ≤ |(D : ℚ) / (M : ℚ)| / 2 ^ 53 * 100 := by
      nlinarith
    linarith

/-- The exact value of the quotient the code forms is the formula of the
specification. -/
theorem percent_exact_eq_spec (a b : Int) :
    ((|b - a| : Int) : ℚ) / ((max b a : Int) : ℚ) * 100 = specPercentDiff a b := by
  unfold specPercentDiff
  push_cast
  rw [abs_sub_comm, max_comm]

/-- The text computed at line 576 as the `toFixed(2)` text of a double within
the relative error of two roundings of the formula. -/
theorem percentDiffOf_double (expText : ℚ → String) (pytestData : PytestData) (a b : Int)
    (h : pytestData.totalDuration = some b) (hmax : max a b ≠ 0) (hms : |max a b| < 2 ^ 53)
    (hdiff : |a - b| ≤ 2 ^ 53) :
    ∃ y : ℚ,
      PerformanceReporter.percentDiffOf expText pytestData a
        = fixedText (decide (y < 0)) (nearestHundredths |y|)
      ∧ |y - specPercentDiff a b| ≤ |specPercentDiff a b| * (2 / 2 ^ 53 + 1 / 2 ^ 106) := by
  have hM : max b a ≠ 0 := by rwa [max_comm]
  have hMs : |max b a| < 2 ^ 53 := by rwa [max_comm]
  have hD : |b - a| ≤ 2 ^ 53 := by rwa [abs_sub_comm]
  obtain ⟨y, hy, hclose⟩ := percent_doubles |b - a| (max b a) (abs_nonneg _) hD hM hMs
  rw [percent_exact_eq_spec] at hclose
  refine ⟨y, ?_, hclose⟩
  have hspec : |specPercentDiff a b| ≤ 100 * 2 ^ 53 := by
    rw [← percent_exact_eq_spec, abs_mul, abs_div]
    have hMq : (1 : ℚ) ≤ |((max b a : Int) : ℚ)| := by
      have : (1 : Int) ≤ |max b a| := Int.one_le_abs hM
      exact_mod_cast this
    have hDq : |((|b - a| : Int) : ℚ)| ≤ 2 ^ 53 := by
      rw [abs_of_nonneg (by exact_mod_cast abs_nonneg (b - a))]
      exact_mod_cast hD
    have h1 : |((|b - a| : Int) : ℚ)| / |((max b a : Int) : ℚ)| ≤ |((|b - a| : Int) : ℚ)| :=
      div_le_self (abs_nonneg _) hMq
    have h100 : |(100 : ℚ)| = 100 := by norm_num
    rw [h100]
    nlinarith [abs_nonneg ((|b - a| : Int) : ℚ)]
  have hylt : |y| < 10 ^ 21 := by
    have h1 := abs_sub_abs_le_abs_sub y (specPercentDiff a b)
    have hc : (2 : ℚ) / 2 ^ 53 + 1 / 2 ^ 106 ≤ 1 := by norm_num
    have h2 : |specPercentDiff a b| * (2 / 2 ^ 53 + 1 / 2 ^ 106) ≤ |specPercentDiff a b| :=
      mul_le_of_le_one_right (abs_nonneg _) hc
    have h3 : (2 : ℚ) * (100 * 2 ^ 53) < 10 ^ 21 := by norm_num
    linarith
  unfold PerformanceReporter.percentDiffOf PerformanceReporter.diffOf
  rw [PerformanceReporter.pytestDurationOf_some pytestData b h, hy,
    toFixed2_fin expText y hylt]

/-- The formula of the specification is negative exactly when the larger
duration is negative and the durations differ. -/
theorem specPercentDiff_neg_iff (a b : Int) (hmax : max a b ≠ 0) :
    specPercentDiff a b < 0 ↔ (max a b < 0 ∧ a ≠ b) := by
  unfold specPercentDiff
  have hcast : max (a : ℚ) (b : ℚ) = ((max a b : Int) : ℚ) := by push_cast; rfl
  rw [hcast]
  have hMq : ((max a b : Int) : ℚ) ≠ 0 := by exact_mod_cast hmax
  have hab : |(a : ℚ) - b| = 0 ↔ a = b := by
    rw [abs_eq_zero, sub_eq_zero]
    exact_mod_cast Iff.rfl
  constructor
  · intro hlt
    have hne : a ≠ b := by
      intro heq
      rw [hab.mpr heq] at hlt
      simp at hlt
    refine ⟨?_, hne⟩
    by_contra hM
    push_neg at hM
    have hMpos : (0 : ℚ) ≤ ((max a b : Int) : ℚ) := by exact_mod_cast hM
    have : 0 ≤ |(a : ℚ) - b| / ((max a b : Int) : ℚ) * 100 := by positivity
    linarith
  · rintro ⟨hM, hne⟩
    have hMneg : ((max a b : Int) : ℚ) < 0 := by exact_mod_cast hM
    have hpos : 0 < |(a : ℚ) - b| := by
      rcases (abs_nonneg ((a : ℚ) - b)).lt_or_eq with hp | hz
      · exact hp
      · exact absurd (hab.mp hz.symm) hne
    have : |(a : ℚ) - b| / ((max a b : Int) : ℚ) < 0 := div_neg_of_pos_of_neg hpos hMneg
    linarith

/-- A record built for a test with a start stamp, from a result whose error,
if there is one, has a message, comes back from `JSON.stringify` and
`JSON.parse` as it was. -/
theorem mkTestResult_throughJson (cwdRelative : String → String) (now : Int)
    (test : TestCase) (result : TestResult) (h : test._startTime ≠ none)
    (hm : ∀ e, result.error = some e → e.message ≠ none) :
    JsObject.throughJson (PerformanceReporter.mkTestResult cwdRelative now test result).toJs
      = (PerformanceReporter.mkTestResult cwdRelative now test result).toJs := by
  obtain ⟨s, hs⟩ := Option.ne_none_iff_exists'.mp h
  cases he : result.error with
  | none =>
    simp [TestRecord.toJs, JsObject.throughJson, JsScalar.throughJson,
      PerformanceReporter.mkTestResult, PerformanceReporter.elapsed, hs, he]
  | some e =>
    obtain ⟨m, hmsg⟩ := Option.ne_none_iff_exists'.mp (hm e he)
    simp [TestRecord.toJs, JsObject.throughJson, JsScalar.throughJson,
      PerformanceReporter.mkTestResult, PerformanceReporter.elapsed, hs, he,
      TestError.messageValue, hmsg]

/-- The value `v || ''` written by `join`, for a row that has the header key
among its own properties or inherits nothing under it, is the cell the
specification describes. -/
theorem joinText_orEmpty_eq_specCsvCell (hostText : ℚ → String) (row : CsvRow)
    (header : String) (h : row.own.lookup header = none → row.inherited header = none) :
    (row.read header).orEmpty.joinText hostText = specCsvCell hostText row header := by
  unfold CsvRow.read specCsvCell
  cases hl : row.own.lookup header with
  | none => simp [h hl, CellValue.orEmpty, CellValue.truthy, CellValue.joinText]
  | some v =>
    cases v with
    | undefined => simp [CellValue.orEmpty, CellValue.truthy, CellValue.joinText]
    | null => simp [CellValue.orEmpty, CellValue.truthy, CellValue.joinText]
    | bool b => cases b <;> simp [CellValue.orEmpty, CellValue.truthy, CellValue.joinText]
    | number x =>
      cases x with
      | fin q =>
        by_cases hq : q = 0
        · simp [CellValue.orEmpty, CellValue.truthy, CellValue.joinText, hq]
        · simp [CellValue.orEmpty, CellValue.truthy, CellValue.joinText, hq]
      | nan => simp [CellValue.orEmpty, CellValue.truthy, CellValue.joinText]
      | posInf => simp [CellValue.orEmpty, CellValue.truthy, CellValue.joinText]
      | negInf => simp [CellValue.orEmpty, CellValue.truthy, CellValue.joinText]
    | bigint n =>
      by_cases hn : n = 0
      · simp [CellValue.orEmpty, CellValue.truthy, CellValue.joinText, hn]
      · simp [CellValue.orEmpty, CellValue.truthy, CellValue.joinText, hn]
    | string s =>
      by_cases hs : s = ""
      · simp [CellValue.orEmpty, CellValue.truthy, CellValue.joinText, hs]
      · simp [CellValue.orEmpty, CellValue.truthy, CellValue.joinText, hs]
    | object text => simp [CellValue.orEmpty, CellValue.truthy, CellValue.joinText]

/-! ## Claims -/

/-- C1 (code defect): the claim that `totalTests` always equals
`passedTests + failedTests + skippedTests` fails on the code: one `onTestEnd`
call on a fresh reporter whose result has Playwright's status `interrupted`
gives `totalTests = 1` while the three other counters stay `0`, because the
`switch` has no branch for that status. -/
theorem C1_interrupted_total_exceeds_sum :
    (PerformanceReporter.run id [interruptedCall]).totalTests = 1
    ∧ (PerformanceReporter.run id [interruptedCall]).passedTests
      + (PerformanceReporter.run id [interruptedCall]).failedTests
      + (PerformanceReporter.run id [interruptedCall]).skippedTests = 0 := by
  decide

/-- C2: after any sequence of `onTestEnd` calls on a fresh reporter,
`totalTests` equals the length of `testResults`. -/
theorem C2_totalTests_eq_length (cwdRelative : String → String)
    (calls : List PerformanceReporter.EndCall) :
    (PerformanceReporter.run cwdRelative calls).totalTests
      = (PerformanceReporter.run cwdRelative calls).testResults.length := by
  unfold PerformanceReporter.run
  exact PerformanceReporter.runFrom_totalTests_eq_length cwdRelative calls _ rfl

/-- C3 (counterexample): with both total durations equal to 1000 it is false
that neither framework card carries the winner badge. -/
theorem C3_tie_badge_counterexample :
    ¬ ((PerformanceReporter.constructor.createComparisonSection (fun _ => "")
          (pytestWithDuration 1000) 1000).playwrightBadge = ""
       ∧ (PerformanceReporter.constructor.createComparisonSection (fun _ => "")
          (pytestWithDuration 1000) 1000).pytestBadge = "") := by
  decide

/-- C3 (amended): when the Playwright total duration equals the pytest total
duration, `createComparisonSection` puts no winner badge on the Playwright card
and puts the winner badge on the Pytest card. -/
theorem C3_tie_badge_on_pytest (r : PerformanceReporter) (expText : ℚ → String)
    (pytestData : PytestData) (d : Int) (h : pytestData.totalDuration = some d) :
    (r.createComparisonSection expText pytestData d).playwrightBadge = ""
    ∧ (r.createComparisonSection expText pytestData d).pytestBadge = winnerBadge := by
  simp [PerformanceReporter.createComparisonSection,
    PerformanceReporter.playwrightFaster_some pytestData d d h]

/-- C3 (witness): the amended statement at the tie 1000 against 1000. -/
theorem C3_tie_badge_on_pytest_witness :
    (pytestWithDuration 1000).totalDuration = some 1000
    ∧ (PerformanceReporter.constructor.createComparisonSection (fun _ => "")
        (pytestWithDuration 1000) 1000).playwrightBadge = ""
    ∧ (PerformanceReporter.constructor.createComparisonSection (fun _ => "")
        (pytestWithDuration 1000) 1000).pytestBadge = winnerBadge :=
  ⟨rfl, C3_tie_badge_on_pytest PerformanceReporter.constructor (fun _ => "")
    (pytestWithDuration 1000) 1000 rfl⟩

/-- C4: for every pair of different total durations `a` (Playwright) and `b`
(pytest), the winner badge is on exactly one framework card, the one with the
strictly smaller total duration: each card's badge slot holds the badge when
its duration is the smaller one and is empty otherwise, and the badge is not
the empty text. -/
theorem C4_badge_on_smaller (r : PerformanceReporter) (expText : ℚ → String)
    (pytestData : PytestData) (a b : Int) (h : pytestData.totalDuration = some b)
    (hab : a ≠ b) :
    (r.createComparisonSection expText pytestData a).playwrightBadge
        = (if a < b then winnerBadge else "")
    ∧ (r.createComparisonSection expText pytestData a).pytestBadge
        = (if b < a then winnerBadge else "")
    ∧ winnerBadge ≠ "" := by
  refine ⟨?_, ?_, winnerBadge_ne_empty⟩
  · simp [PerformanceReporter.createComparisonSection,
      PerformanceReporter.playwrightFaster_some pytestData a b h]
  · have hlt : ¬ a < b ↔ b < a := by omega
    simp [PerformanceReporter.createComparisonSection,
      PerformanceReporter.playwrightFaster_some pytestData a b h, hlt]

/-- C4 (witness): for 1000 ms (Playwright) against 2000 ms (pytest) the
Playwright card carries the badge and the Pytest card does not. -/
theorem C4_badge_on_smaller_witness :
    (pytestWithDuration 2000).totalDuration = some 2000 ∧ (1000 : Int) ≠ 2000
    ∧ (PerformanceReporter.constructor.createComparisonSection (fun _ => "")
        (pytestWithDuration 2000) 1000).playwrightBadge
        = (if (1000 : Int) < 2000 then winnerBadge else "")
    ∧ (PerformanceReporter.constructor.createComparisonSection (fun _ => "")
        (pytestWithDuration 2000) 1000).pytestBadge
        = (if (2000 : Int) < 1000 then winnerBadge else "")
    ∧ winnerBadge ≠ "" :=
  ⟨rfl, by decide, C4_badge_on_smaller PerformanceReporter.constructor (fun _ => "")
    (pytestWithDuration 2000) 1000 2000 rfl (by decide)⟩

/-- C5 (counterexample): with both durations equal to 1000, exchanging the two
roles does not exchange the badges: the Playwright card of one arrangement has
no badge while the Pytest card of the other has it. -/
theorem C5_symmetry_counterexample :
    ¬ ((PerformanceReporter.constructor.createComparisonSection (fun _ => "")
          (pytestWithDuration 1000) 1000).playwrightBadge
        = (PerformanceReporter.constructor.createComparisonSection (fun _ => "")
          (pytestWithDuration 1000) 1000).pytestBadge
      ∧ (PerformanceReporter.constructor.createComparisonSection (fun _ => "")
          (pytestWithDuration 1000) 1000).pytestBadge
        = (PerformanceReporter.constructor.createComparisonSection (fun _ => "")
          (pytestWithDuration 1000) 1000).playwrightBadge) := by
  decide

/-- C5 (amended): for every pair of different durations `a` and `b`,
exchanging which one is the Playwright duration and which is the pytest
duration exchanges the badge slots of the two cards. -/
theorem C5_symmetry_of_ne (r : PerformanceReporter) (expText : ℚ → String)
    (pa pb : PytestData) (a b : Int) (ha : pa.totalDuration = some a)
    (hb : pb.totalDuration = some b) (hab : a ≠ b) :
    (r.createComparisonSection expText pb a).playwrightBadge
        = (r.createComparisonSection expText pa b).pytestBadge
    ∧ (r.createComparisonSection expText pb a).pytestBadge
        = (r.createComparisonSection expText pa b).playwrightBadge := by
  have hlt : ¬ a < b ↔ b < a := by omega
  have hlt2 : ¬ b < a ↔ a < b := by omega
  constructor
  · simp [PerformanceReporter.createComparisonSection,
      PerformanceReporter.playwrightFaster_some pb a b hb,
      PerformanceReporter.playwrightFaster_some pa b a ha, hlt2]
  · simp [PerformanceReporter.createComparisonSection,
      PerformanceReporter.playwrightFaster_some pb a b hb,
      PerformanceReporter.playwrightFaster_some pa b a ha, hlt]

/-- C5 (witness): the amended statement at 1000 against 2000. -/
theorem C5_symmetry_of_ne_witness :
    (pytestWithDuration 1000).totalDuration = some 1000
    ∧ (pytestWithDuration 2000).totalDuration = some 2000
    ∧ (1000 : Int) ≠ 2000
    ∧ (PerformanceReporter.constructor.createComparisonSection (fun _ => "")
        (pytestWithDuration 2000) 1000).playwrightBadge
        = (PerformanceReporter.constructor.createComparisonSection (fun _ => "")
            (pytestWithDuration 1000) 2000).pytestBadge
    ∧ (PerformanceReporter.constructor.createComparisonSection (fun _ => "")
        (pytestWithDuration 2000) 1000).pytestBadge
        = (PerformanceReporter.constructor.createComparisonSection (fun _ => "")
            (pytestWithDuration 1000) 2000).playwrightBadge :=
  ⟨rfl, rfl, by decide, C5_symmetry_of_ne PerformanceReporter.constructor (fun _ => "")
    (pytestWithDuration 1000) (pytestWithDuration 2000) 1000 2000 rfl rfl (by decide)⟩

/-- C6 (counterexample): with both total durations `0` the text shown as the
percentage is `NaN`, which is not the two-decimal text of any number; and for
50002279 ms against 1000045579999 ms the text shown is `100.00`, which is not
the formula rounded to two decimals (the formula is below `99.995`), because
the quotient and the product are rounded to doubles first. -/
theorem C6_percent_counterexample :
    ((PerformanceReporter.constructor.createComparisonSection (fun _ => "")
        (pytestWithDuration 0) 0).percentDiff = "NaN"
      ∧ ¬ ∃ (neg : Bool) (n : Nat),
        (PerformanceReporter.constructor.createComparisonSection (fun _ => "")
          (pytestWithDuration 0) 0).percentDiff = fixedText neg n)
    ∧ ((PerformanceReporter.constructor.createComparisonSection (fun _ => "")
        (pytestWithDuration 1000045579999) 50002279).percentDiff = fixedText false 10000
      ∧ fixedText false 10000 = "100.00"
      ∧ ¬ roundsToHundredths 10000 (specPercentDiff 50002279 1000045579999)) := by
  have h : (PerformanceReporter.constructor.createComparisonSection (fun _ => "")
      (pytestWithDuration 0) 0).percentDiff = "NaN" := by
    simp [PerformanceReporter.createComparisonSection, PerformanceReporter.percentDiffOf,
      PerformanceReporter.diffOf, PerformanceReporter.pytestDurationOf, pytestWithDuration,
      orDefault, JsNum.div, JsNum.mulPos, toFixed2]
  refine ⟨⟨h, ?_⟩, by decide!, by decide, ?_⟩
  · rintro ⟨neg, n, hn⟩
    have hp := point_mem_fixedText neg n
    rw [← hn, h] at hp
    revert hp
    decide
  · unfold roundsToHundredths specPercentDiff
    rw [abs_le]
    push_neg
    intro _
    norm_num [abs_of_nonneg, abs_of_nonpos]

/-- C6 (amended): for every pair of total durations `a` (Playwright) and `b`
(pytest), integers below `2^53` in magnitude, with `max(a,b) ≠ 0` and
`40001 * |a - b| ≤ 2^53`, the percentage shown by `createComparisonSection` is
`abs(a-b) / max(a,b) * 100` rounded to two decimals: the text is the
two-decimal text of a number of hundredths that rounds the magnitude of the
formula, with a minus sign exactly when the formula is negative. -/
theorem C6_percent_rounded (r : PerformanceReporter) (expText : ℚ → String)
    (pytestData : PytestData) (a b : Int) (h : pytestData.totalDuration = some b)
    (hsa : |a| < 2 ^ 53) (hsb : |b| < 2 ^ 53) (hmax : max a b ≠ 0)
    (hdiff : 40001 * |a - b| ≤ 2 ^ 53) :
    ∃ n : Nat,
      (r.createComparisonSection expText pytestData a).percentDiff
        = fixedText (decide (max a b < 0 ∧ a ≠ b)) n
      ∧ roundsToHundredths n |specPercentDiff a b| := by
  have hms : |max a b| < 2 ^ 53 := by
    rcases max_choice a b with hm | hm <;> rw [hm] <;> assumption
  have hD0 : (0 : Int) ≤ |a - b| := abs_nonneg _
  have hD : |a - b| ≤ 2 ^ 53 := by omega
  obtain ⟨y, htext, hclose⟩ := percentDiffOf_double expText pytestData a b h hmax hms hD
  have hc1 : (2 : ℚ) / 2 ^ 53 + 1 / 2 ^ 106 < 1 := by norm_num
  have hsign : (y < 0) ↔ (max a b < 0 ∧ a ≠ b) := by
    rw [neg_iff_of_rel_close _ y _ hc1 hclose, specPercentDiff_neg_iff a b hmax]
  refine ⟨nearestHundredths |y|, ?_, ?_⟩
  · show PerformanceReporter.percentDiffOf expText pytestData a = _
    rw [htext]
    simp only [hsign]
  · have hMq : (1 : ℚ) ≤ |((max a b : Int) : ℚ)| := by
      have : (1 : Int) ≤ |max a b| := Int.one_le_abs hmax
      exact_mod_cast this
    have hMpos : (0 : ℚ) < |((max a b : Int) : ℚ)| := by linarith
    have hT : 0 < (max a b).natAbs := Int.natAbs_pos.mpr hmax
    have hTcast : (((max a b).natAbs : Nat) : ℚ) = |((max a b : Int) : ℚ)| := by
      rw [Nat.cast_natAbs, Int.cast_abs]
    have hspecabs : |specPercentDiff a b|
        = ((|a - b| : Int) : ℚ) / |((max a b : Int) : ℚ)| * 100 := by
      unfold specPercentDiff
      have hcast : max (a : ℚ) (b : ℚ) = ((max a b : Int) : ℚ) := by push_cast; rfl
      rw [hcast, abs_mul, abs_div, abs_abs]
      push_cast
      norm_num
    have hDq0 : (0 : ℚ) ≤ ((|a - b| : Int) : ℚ) := by exact_mod_cast hD0
    have hdq : 40001 * ((|a - b| : Int) : ℚ) ≤ 2 ^ 53 := by exact_mod_cast hdiff
    apply nearestHundredths_rounds_of_close |specPercentDiff a b| |y| (max a b).natAbs
      (10000 * |a - b|) hT (abs_nonneg y)
    · have key : ∀ Dq Mq : ℚ, 0 < Mq → 100 * (Dq / Mq * 100) * Mq = 10000 * Dq := by
        intro Dq Mq hMq0
        field_simp
        ring
      have hk : ((10000 * |a - b| : Int) : ℚ) = 10000 * ((|a - b| : Int) : ℚ) := by
        rw [Int.cast_mul]
        norm_num
      rw [hTcast, hspecabs, hk]
      exact key _ _ hMpos
    · have h1 : |(|y| - |specPercentDiff a b|)|
          ≤ |specPercentDiff a b| * (2 / 2 ^ 53 + 1 / 2 ^ 106) :=
        le_trans (abs_abs_sub_abs_le_abs_sub y (specPercentDiff a b)) hclose
      have h2 : |specPercentDiff a b| * (2 / 2 ^ 53 + 1 / 2 ^ 106)
            * (200 * (((max a b).natAbs : Nat) : ℚ))
          = 20000 * ((|a - b| : Int) : ℚ) * (2 / 2 ^ 53 + 1 / 2 ^ 106) := by
        have key : ∀ Dq Mq c : ℚ, 0 < Mq →
            Dq / Mq * 100 * c * (200 * Mq) = 20000 * Dq * c := by
          intro Dq Mq c hMq0
          field_simp
          ring
        rw [hTcast, hspecabs]
        exact key _ _ _ hMpos
      have h3 : 20000 * ((|a - b| : Int) : ℚ) * (2 / 2 ^ 53 + 1 / 2 ^ 106) < 1 := by
        have e : (20000 : ℚ) * (2 / 2 ^ 53 + 1 / 2 ^ 106)
            ≤ 40001 / 2 ^ 53 - 1 / 2 ^ 54 := by norm_num
        have e2 : 20000 * ((|a - b| : Int) : ℚ) * (2 / 2 ^ 53 + 1 / 2 ^ 106)
            ≤ ((|a - b| : Int) : ℚ) * (40001 / 2 ^ 53 - 1 / 2 ^ 54) := by
          nlinarith
        have e3 : ((|a - b| : Int) : ℚ) * (40001 / 2 ^ 53) ≤ 1 := by
          have : ((|a - b| : Int) : ℚ) * (40001 / 2 ^ 53)
              = 40001 * ((|a - b| : Int) : ℚ) / 2 ^ 53 := by ring
          rw [this, div_le_one (by positivity)]
          exact hdq
        by_cases hz : ((|a - b| : Int) : ℚ) = 0
        · rw [hz]; norm_num
        · have hpos : 0 < ((|a - b| : Int) : ℚ) := lt_of_le_of_ne hDq0 (Ne.symm hz)
          nlinarith
      calc |(|y| - |specPercentDiff a b|)| * (200 * (((max a b).natAbs : Nat) : ℚ))
          ≤ |specPercentDiff a b| * (2 / 2 ^ 53 + 1 / 2 ^ 106)
              * (200 * (((max a b).natAbs : Nat) : ℚ)) :=
            mul_le_mul_of_nonneg_right h1 (by positivity)
        _ = 20000 * ((|a - b| : Int) : ℚ) * (2 / 2 ^ 53 + 1 / 2 ^ 106) := h2
        _ < 1 := h3

/-- C6 (witness): for 1000 against 2000 the formula is `50` and the percentage
shown is `50.00`. -/
theorem C6_percent_rounded_witness :
    (pytestWithDuration 2000).totalDuration = some 2000
    ∧ |(1000 : Int)| < 2 ^ 53 ∧ |(2000 : Int)| < 2 ^ 53 ∧ max (1000 : Int) 2000 ≠ 0
    ∧ 40001 * |(1000 : Int) - 2000| ≤ 2 ^ 53
    ∧ specPercentDiff 1000 2000 = 50
    ∧ (PerformanceReporter.constructor.createComparisonSection (fun _ => "")
        (pytestWithDuration 2000) 1000).percentDiff = "50.00" := by
  have hspec : specPercentDiff 1000 2000 = 50 := by
    unfold specPercentDiff
    norm_num [abs_of_nonneg]
  refine ⟨rfl, by decide, by decide, by decide, by decide, hspec, ?_⟩
  obtain ⟨n, htext, hround⟩ :=
    C6_percent_rounded PerformanceReporter.constructor (fun _ => "")
      (pytestWithDuration 2000) 1000 2000 rfl (by decide) (by decide) (by decide) (by decide)
  rw [hspec] at hround
  have h50 : |(50 : ℚ)| = 50 := by norm_num
  rw [h50] at hround
  rw [htext, roundsToHundredths_fifty n hround]
  decide

/-- C7 (counterexample): `onTestEnd` for a test without a recorded start
timestamp appends a record whose duration is `NaN`, not `0`. -/
theorem C7_missing_start_counterexample :
    ¬ ∃ rec : TestRecord,
        (PerformanceReporter.constructor.onTestEnd id 5 unstartedTest passedResult).testResults
          = [rec]
        ∧ rec.duration = JsNum.fin 0 := by
  rintro ⟨rec, hrec, hdur⟩
  rw [PerformanceReporter.onTestEnd_testResults] at hrec
  simp only [PerformanceReporter.constructor, List.nil_append, List.cons.injEq,
    and_true] at hrec
  rw [← hrec] at hdur
  simp [PerformanceReporter.mkTestResult, PerformanceReporter.elapsed, unstartedTest] at hdur

/-- C7 (amended): when `onTestEnd` is called for a test that has no recorded
start timestamp, it returns normally, having appended exactly one record, and
that record has duration `NaN` and no start time. -/
theorem C7_missing_start_nan (r : PerformanceReporter) (cwdRelative : String → String)
    (now : Int) (test : TestCase) (result : TestResult) (h : test._startTime = none) :
    ∃ rec : TestRecord,
      (r.onTestEnd cwdRelative now test result).testResults = r.testResults ++ [rec]
      ∧ rec.duration = JsNum.nan ∧ rec.startTime = none ∧ rec.endTime = now := by
  refine ⟨PerformanceReporter.mkTestResult cwdRelative now test result,
    PerformanceReporter.onTestEnd_testResults r cwdRelative now test result, ?_, ?_, rfl⟩
  · simp [PerformanceReporter.mkTestResult, PerformanceReporter.elapsed, h]
  · simp [PerformanceReporter.mkTestResult, h]

/-- C7 (witness): the amended statement for an unstamped test on a fresh
reporter. -/
theorem C7_missing_start_nan_witness :
    unstartedTest._startTime = none
    ∧ ∃ rec : TestRecord,
      (PerformanceReporter.constructor.onTestEnd id 5 unstartedTest passedResult).testResults
        = PerformanceReporter.constructor.testResults ++ [rec]
      ∧ rec.duration = JsNum.nan ∧ rec.startTime = none ∧ rec.endTime = 5 :=
  ⟨rfl, C7_missing_start_nan PerformanceReporter.constructor id 5 unstartedTest
    passedResult rfl⟩

/-- C8: the record appended by `onTestEnd` (clock reading `e`) for a test that
`onTestBegin` stamped (clock reading `s`) has that start time, that end time,
and `duration == endTime - startTime`. -/
theorem C8_duration_is_end_minus_start (r : PerformanceReporter)
    (cwdRelative : String → String) (test : TestCase) (result : TestResult) (s e : Int) :
    ∃ rec : TestRecord,
      (r.onTestEnd cwdRelative e (PerformanceReporter.onTestBegin test s) result).testResults
        = r.testResults ++ [rec]
      ∧ rec.startTime = some s ∧ rec.endTime = e
      ∧ rec.duration = JsNum.fin ((rec.endTime - s : Int) : ℚ) :=
  ⟨PerformanceReporter.mkTestResult cwdRelative e (PerformanceReporter.onTestBegin test s)
      result,
    PerformanceReporter.onTestEnd_testResults r cwdRelative e _ result, rfl, rfl, rfl⟩

/-- C9 (counterexample): a record appended for a test without a start stamp,
and a record appended when the clock reading at the end (5) is earlier than
the one at the begin (9), both fail `duration >= 0 and endTime >= startTime`. -/
theorem C9_nonneg_counterexample :
    (PerformanceReporter.constructor.onTestEnd id 5 unstartedTest passedResult).testResults.map
        TestRecord.nonNegative = [false]
    ∧ (PerformanceReporter.constructor.onTestEnd id 5
        (PerformanceReporter.onTestBegin unstartedTest 9) passedResult).testResults.map
        TestRecord.nonNegative = [false] := by
  constructor
  · decide
  · decide!

/-- C9 (amended): every record appended by `onTestEnd` for a test that
`onTestBegin` stamped, when the clock reading at the end is not earlier than
the one at the begin, has `duration >= 0` and `endTime >= startTime`. -/
theorem C9_nonneg_of_ordered_clock (r : PerformanceReporter)
    (cwdRelative : String → String) (test : TestCase) (result : TestResult) (s e : Int)
    (h : s ≤ e) :
    ∃ rec : TestRecord,
      (r.onTestEnd cwdRelative e (PerformanceReporter.onTestBegin test s) result).testResults
        = r.testResults ++ [rec]
      ∧ rec.duration.geZero = true ∧ rec.endNotBeforeStart = true := by
  refine ⟨PerformanceReporter.mkTestResult cwdRelative e
      (PerformanceReporter.onTestBegin test s) result,
    PerformanceReporter.onTestEnd_testResults r cwdRelative e _ result, ?_, ?_⟩
  · have hq : (0 : ℚ) ≤ ((e - s : Int) : ℚ) := by
      have : (0 : Int) ≤ e - s := by omega
      exact_mod_cast this
    simp only [PerformanceReporter.mkTestResult, PerformanceReporter.onTestBegin,
      PerformanceReporter.elapsed, JsNum.geZero]
    exact decide_eq_true hq
  · simp only [TestRecord.endNotBeforeStart, PerformanceReporter.mkTestResult,
      PerformanceReporter.onTestBegin]
    exact decide_eq_true h

/-- C9 (witness): the amended statement for a test begun at 3 and ended at 5. -/
theorem C9_nonneg_of_ordered_clock_witness :
    (3 : Int) ≤ 5
    ∧ ∃ rec : TestRecord,
      (PerformanceReporter.constructor.onTestEnd id 5
          (PerformanceReporter.onTestBegin unstartedTest 3) passedResult).testResults
        = PerformanceReporter.constructor.testResults ++ [rec]
      ∧ rec.duration.geZero = true ∧ rec.endNotBeforeStart = true :=
  ⟨by decide, C9_nonneg_of_ordered_clock PerformanceReporter.constructor id unstartedTest
    passedResult 3 5 (by decide)⟩

/-- C10: when no test was recorded (`totalTests == 0`), the average duration
computed by `createHTMLReport` is the number `0` for every total duration (no
quotient is formed), and it is interpolated as the text `0`. -/
theorem C10_avg_zero_without_tests (r : PerformanceReporter) (expText : ℚ → String)
    (totalDuration : Int) (h : r.totalTests = 0) :
    r.avgDuration expText totalDuration = PerformanceReporter.AvgDuration.number 0
    ∧ (r.avgDuration expText totalDuration).interpolate = "0" := by
  have hz : r.avgDuration expText totalDuration = PerformanceReporter.AvgDuration.number 0 := by
    simp [PerformanceReporter.avgDuration, h]
  rw [hz]
  exact ⟨rfl, by decide⟩

/-- C10 (witness): a fresh reporter and a total duration of 12345 ms. -/
theorem C10_avg_zero_without_tests_witness :
    PerformanceReporter.constructor.totalTests = 0
    ∧ PerformanceReporter.constructor.avgDuration (fun _ => "") 12345
        = PerformanceReporter.AvgDuration.number 0
    ∧ (PerformanceReporter.constructor.avgDuration (fun _ => "") 12345).interpolate = "0" :=
  ⟨rfl, C10_avg_zero_without_tests PerformanceReporter.constructor (fun _ => "") 12345 rfl⟩

/-- C11 (code defect): on a fresh reporter (`totalTests == 0`) with a
comparison summary present, the Playwright `Avg per Test` text of
`createComparisonSection` is `Infinity` for a total duration of 1000 ms and
`NaN` for a total duration of 0 ms: line 606 divides by `totalTests` without
the guard that lines 111 and 634 have. -/
theorem C11_avg_per_test_divides_by_zero :
    PerformanceReporter.constructor.totalTests = 0
    ∧ (PerformanceReporter.constructor.createComparisonSection (fun _ => "")
        (pytestWithDuration 2000) 1000).playwrightAvg = "Infinity"
    ∧ (PerformanceReporter.constructor.createComparisonSection (fun _ => "")
        (pytestWithDuration 2000) 0).playwrightAvg = "NaN" := by
  refine ⟨rfl, ?_, ?_⟩
  · decide!
  · decide!

/-- C12 (counterexample): with three recorded tests and a total duration of
`10^15 + 1` ms the average that `createHTMLReport` computes is
`333333333333333.69`, which is not the exact quotient `333333333333333.666…`
rounded to two decimals: the double nearest to the quotient is
`333333333333333.6875`. -/
theorem C12_avg_counterexample :
    (PerformanceReporter.run id threeCalls).totalTests = 3
    ∧ (∃ document : HtmlReport,
        (PerformanceReporter.run id threeCalls).createHTMLReport
            (sampleHost PytestFile.absent none) 1000000000000001 = Except.ok document
        ∧ document.avgDuration
          = PerformanceReporter.AvgDuration.text (fixedText false 33333333333333369))
    ∧ fixedText false 33333333333333369 = "333333333333333.69"
    ∧ ¬ roundsToHundredths 33333333333333369 (|(1000000000000001 : ℚ)| / 3) := by
  refine ⟨by decide, ⟨_, rfl, by decide!⟩, by decide, ?_⟩
  unfold roundsToHundredths
  rw [abs_le]
  push_neg
  intro _
  norm_num [abs_of_nonneg]

/-- C12 (amended): for every run with `totalTests > 0` (a counter below
`2^53`) and a total duration below `2^53 / 200` ms in magnitude, the average
duration in the document of `createHTMLReport` is the total duration divided
by `totalTests`, rounded to two decimals, with the sign of the total
duration; it is the same whatever the recorded tests and their durations
are. -/
theorem C12_avg_is_total_over_count (r : PerformanceReporter) (host : Host)
    (totalDuration : Int) (ht : 0 < r.totalTests) (hts : r.totalTests < 2 ^ 53)
    (hd : 200 * |totalDuration| < 2 ^ 53) :
    ∃ (document : HtmlReport) (n : Nat),
      r.createHTMLReport host totalDuration = Except.ok document
      ∧ document.avgDuration
        = PerformanceReporter.AvgDuration.text (fixedText (decide (totalDuration < 0)) n)
      ∧ roundsToHundredths n (|(totalDuration : ℚ)| / (r.totalTests : ℚ))
      ∧ ∀ records : List TestRecord,
          ∃ document2 : HtmlReport,
            PerformanceReporter.createHTMLReport { r with testResults := records } host
                totalDuration = Except.ok document2
            ∧ document2.avgDuration = document.avgDuration := by
  obtain ⟨n, havg, hround⟩ := avgDuration_rounds r host.expText totalDuration ht hts hd
  exact ⟨_, n, rfl, havg, hround, fun _ => ⟨_, rfl, rfl⟩⟩

/-- C12 (witness): for a total duration of 500 ms and the three recorded tests
of `threeCalls` the average is `166.67`. -/
theorem C12_avg_is_total_over_count_witness :
    0 < (PerformanceReporter.run id threeCalls).totalTests
    ∧ (PerformanceReporter.run id threeCalls).totalTests < 2 ^ 53
    ∧ 200 * |(500 : Int)| < 2 ^ 53
    ∧ (PerformanceReporter.run id threeCalls).totalTests = 3
    ∧ ∃ document : HtmlReport,
        (PerformanceReporter.run id threeCalls).createHTMLReport
            (sampleHost PytestFile.absent none) 500 = Except.ok document
        ∧ document.avgDuration = PerformanceReporter.AvgDuration.text "166.67" := by
  have h3 : (PerformanceReporter.run id threeCalls).totalTests = 3 := by decide
  refine ⟨by decide, by decide, by decide, h3, ?_⟩
  obtain ⟨document, n, hdoc, htext, hround, _⟩ :=
    C12_avg_is_total_over_count (PerformanceReporter.run id threeCalls)
      (sampleHost PytestFile.absent none) 500 (by decide) (by decide) (by decide)
  refine ⟨document, hdoc, ?_⟩
  rw [h3] at hround
  have hn : n = 16667 := by
    apply roundsToHundredths_eq n 16667 _ hround
    · norm_num [abs_of_nonneg]
    · norm_num [abs_of_nonneg]
  rw [htext, hn]
  decide

/-- C13: when the comparison file does not exist, `createHTMLReport` returns a
document (no exception) whose comparison slot is the constant placeholder;
the placeholder text contains `Pytest Comparison Pending` and does not contain
`winner-badge`. -/
theorem C13_placeholder_when_file_absent (r : PerformanceReporter) (host : Host)
    (totalDuration : Int) (h : host.pytestFile = PytestFile.absent) :
    ∃ document : HtmlReport,
      r.createHTMLReport host totalDuration = Except.ok document
      ∧ document.comparisonSection = ComparisonSlot.placeholder
      ∧ document.comparisonSection.constantText = some placeholderText
      ∧ containsText placeholderText "Pytest Comparison Pending" = true
      ∧ containsText placeholderText "winner-badge" = false := by
  refine ⟨_, rfl, ?_, ?_, by decide!, by decide!⟩
  · simp [PerformanceReporter.comparisonSlot, h]
  · simp [PerformanceReporter.comparisonSlot, h, ComparisonSlot.constantText]

/-- C13 (witness): a fresh reporter, no pytest file, total duration 1000 ms. -/
theorem C13_placeholder_when_file_absent_witness :
    (sampleHost PytestFile.absent none).pytestFile = PytestFile.absent
    ∧ ∃ document : HtmlReport,
      PerformanceReporter.constructor.createHTMLReport (sampleHost PytestFile.absent none) 1000
        = Except.ok document
      ∧ document.comparisonSection = ComparisonSlot.placeholder
      ∧ document.comparisonSection.constantText = some placeholderText
      ∧ containsText placeholderText "Pytest Comparison Pending" = true
      ∧ containsText placeholderText "winner-badge" = false :=
  ⟨rfl, C13_placeholder_when_file_absent PerformanceReporter.constructor
    (sampleHost PytestFile.absent none) 1000 rfl⟩

/-- C14: when the comparison file exists but reading or parsing it throws, or
it parses to `null` (from which `createComparisonSection` cannot read a
property), `createHTMLReport` returns a document (no exception) whose
comparison slot is the empty text. -/
theorem C14_section_omitted_when_unusable (r : PerformanceReporter) (host : Host)
    (totalDuration : Int)
    (h : host.pytestFile = PytestFile.unparsable
      ∨ host.pytestFile = PytestFile.parsed ParsedJson.null) :
    ∃ document : HtmlReport,
      r.createHTMLReport host totalDuration = Except.ok document
      ∧ document.comparisonSection = ComparisonSlot.empty
      ∧ document.comparisonSection.constantText = some "" := by
  have hslot : r.comparisonSlot host.expText host.pytestFile totalDuration
      = ComparisonSlot.empty := by
    rcases h with h | h <;>
      simp [PerformanceReporter.comparisonSlot, PerformanceReporter.tryComparison, h]
  refine ⟨_, rfl, hslot, ?_⟩
  show (r.comparisonSlot host.expText host.pytestFile totalDuration).constantText = some ""
  rw [hslot]
  rfl

/-- C14 (witness): a fresh reporter and a pytest file that parses to `null`. -/
theorem C14_section_omitted_when_unusable_witness :
    ((sampleHost (PytestFile.parsed ParsedJson.null) none).pytestFile = PytestFile.unparsable
      ∨ (sampleHost (PytestFile.parsed ParsedJson.null) none).pytestFile
          = PytestFile.parsed ParsedJson.null)
    ∧ ∃ document : HtmlReport,
      PerformanceReporter.constructor.createHTMLReport
          (sampleHost (PytestFile.parsed ParsedJson.null) none) 1000 = Except.ok document
      ∧ document.comparisonSection = ComparisonSlot.empty
      ∧ document.comparisonSection.constantText = some "" :=
  ⟨Or.inr rfl, C14_section_omitted_when_unusable PerformanceReporter.constructor
    (sampleHost (PytestFile.parsed ParsedJson.null) none) 1000 (Or.inr rfl)⟩

/-- C15: in `onEnd`, when creating the directory succeeds, the JSON summary is
written before the HTML report (a successful JSON write is followed by the
HTML write), and when the JSON write throws `e`, the exception `e` leaves
`onEnd` and no HTML write is attempted. -/
theorem C15_json_before_html (r : PerformanceReporter) (host : Host) (now : Int)
    (hm : host.mkdirError = none) :
    (host.writeJsonError = none →
      ∃ (data : ReportData) (document : HtmlReport),
        (r.onEnd host now).2.attempted
          = [FsCall.mkdir "reports",
             FsCall.writeJson "reports/playwright-results.json" data,
             FsCall.writeHtml "reports/performance-comparison.html" document]
        ∧ (r.onEnd host now).2.thrown = host.writeHtmlError)
    ∧ (∀ e : String, host.writeJsonError = some e →
      ∃ data : ReportData,
        (r.onEnd host now).2.attempted
          = [FsCall.mkdir "reports",
             FsCall.writeJson "reports/playwright-results.json" data]
        ∧ (r.onEnd host now).2.thrown = some e) := by
  have hoe : (r.onEnd host now).2
      = PerformanceReporter.writeReports { r with suiteEndTime := some now } host
          (PerformanceReporter.totalDurationAt { r with suiteEndTime := some now } now) := rfl
  constructor
  · intro hj
    obtain ⟨document, _, hw⟩ :=
      PerformanceReporter.writeReports_of_saved { r with suiteEndTime := some now } host
        (PerformanceReporter.totalDurationAt { r with suiteEndTime := some now } now) hm hj
    rw [hoe, hw]
    exact ⟨_, document, rfl, rfl⟩
  · intro e hj
    rw [hoe, PerformanceReporter.writeReports_of_json_error
      { r with suiteEndTime := some now } host
      (PerformanceReporter.totalDurationAt { r with suiteEndTime := some now } now) e hm hj]
    exact ⟨_, rfl, rfl⟩

/-- C15 (witness): a reporter whose JSON write throws `EACCES`: the directory
call and the JSON write are the only calls, and `EACCES` leaves `onEnd`. -/
theorem C15_json_before_html_witness :
    (sampleHost PytestFile.absent (some "EACCES")).mkdirError = none
    ∧ (sampleHost PytestFile.absent (some "EACCES")).writeJsonError = some "EACCES"
    ∧ ∃ data : ReportData,
      ((PerformanceReporter.run id threeCalls).onEnd
          (sampleHost PytestFile.absent (some "EACCES")) 900).2.attempted
        = [FsCall.mkdir "reports",
           FsCall.writeJson "reports/playwright-results.json" data]
      ∧ ((PerformanceReporter.run id threeCalls).onEnd
          (sampleHost PytestFile.absent (some "EACCES")) 900).2.thrown = some "EACCES" :=
  ⟨rfl, rfl,
    (C15_json_before_html (PerformanceReporter.run id threeCalls)
      (sampleHost PytestFile.absent (some "EACCES")) 900 rfl).2 "EACCES" rfl⟩

/-- C16: the summary that `saveResults` writes after `onBegin` and a sequence
of `onTestEnd` calls has framework `Playwright`, `totalDuration` equal to the
argument, `totalTests`, `passed`, `failed` and `skipped` equal to the
reporter's four counters, and `tests` equal to the records of the calls in
arrival order. -/
theorem C16_summary_fields (cwdRelative : String → String)
    (calls : List PerformanceReporter.EndCall) (host : Host) (s totalDuration : Int)
    (hm : host.mkdirError = none) :
    ∃ data : ReportData,
      ((PerformanceReporter.runFrom (PerformanceReporter.constructor.onBegin s)
          cwdRelative calls).saveResults host totalDuration).attempted
        = [FsCall.mkdir "reports", FsCall.writeJson "reports/playwright-results.json" data]
      ∧ data.framework = "Playwright"
      ∧ data.totalDuration = totalDuration
      ∧ data.totalTests
          = (PerformanceReporter.runFrom (PerformanceReporter.constructor.onBegin s)
              cwdRelative calls).totalTests
      ∧ data.passed
          = (PerformanceReporter.runFrom (PerformanceReporter.constructor.onBegin s)
              cwdRelative calls).passedTests
      ∧ data.failed
          = (PerformanceReporter.runFrom (PerformanceReporter.constructor.onBegin s)
              cwdRelative calls).failedTests
      ∧ data.skipped
          = (PerformanceReporter.runFrom (PerformanceReporter.constructor.onBegin s)
              cwdRelative calls).skippedTests
      ∧ data.tests
          = calls.map (fun c =>
              PerformanceReporter.mkTestResult cwdRelative c.now c.test c.result) := by
  refine ⟨(PerformanceReporter.runFrom (PerformanceReporter.constructor.onBegin s)
      cwdRelative calls).reportData host.isoTimestamp totalDuration,
    ?_, rfl, rfl, rfl, rfl, rfl, rfl, ?_⟩
  · rw [PerformanceReporter.saveResults_of_mkdir _ host totalDuration hm]
  · simp [PerformanceReporter.reportData, PerformanceReporter.runFrom_testResults,
      PerformanceReporter.onBegin, PerformanceReporter.constructor]

/-- C16 (witness): the summary written after the three calls of `threeCalls`
counts three tests, one passed, one failed and one skipped, and lists three
records. -/
theorem C16_summary_fields_witness :
    (sampleHost PytestFile.absent none).mkdirError = none
    ∧ ∃ data : ReportData,
      ((PerformanceReporter.runFrom (PerformanceReporter.constructor.onBegin 0)
          id threeCalls).saveResults (sampleHost PytestFile.absent none) 500).attempted
        = [FsCall.mkdir "reports", FsCall.writeJson "reports/playwright-results.json" data]
      ∧ data.framework = "Playwright"
      ∧ data.totalDuration = 500
      ∧ data.totalTests = 3 ∧ data.passed = 1 ∧ data.failed = 1 ∧ data.skipped = 1
      ∧ data.tests.length = 3 := by
  refine ⟨rfl, ?_⟩
  obtain ⟨data, hw, hf, hd, ht, hp, hfl, hs, hts⟩ :=
    C16_summary_fields id threeCalls (sampleHost PytestFile.absent none) 0 500 rfl
  refine ⟨data, hw, hf, hd, ?_, ?_, ?_, ?_, ?_⟩
  · rw [ht]; decide
  · rw [hp]; decide
  · rw [hfl]; decide
  · rw [hs]; decide
  · rw [hts]; decide

/-- C17 (counterexample): the summary built after one `onTestEnd` call for a
test without a start stamp does not come back from `JSON.stringify` and
`JSON.parse` as it was (the `NaN` duration comes back as `null` and the
`undefined` start time is not written); neither does the summary built after
one call for a stamped test whose result carries an error without a message
(the `undefined` error is not written). -/
theorem C17_round_trip_counterexample :
    ¬ (((PerformanceReporter.run id
          [{ now := 5, test := unstartedTest, result := passedResult }]).reportData
          "2025-01-01T00:00:00.000Z" 5).toJs.throughJson
        = ((PerformanceReporter.run id
          [{ now := 5, test := unstartedTest, result := passedResult }]).reportData
          "2025-01-01T00:00:00.000Z" 5).toJs)
    ∧ (PerformanceReporter.onTestBegin unstartedTest 0)._startTime = some 0
    ∧ ¬ (((PerformanceReporter.runFrom (PerformanceReporter.constructor.onBegin 0) id
          [{ now := 5, test := PerformanceReporter.onTestBegin unstartedTest 0,
             result := thrownValueResult }]).reportData
          "2025-01-01T00:00:00.000Z" 5).toJs.throughJson
        = ((PerformanceReporter.runFrom (PerformanceReporter.constructor.onBegin 0) id
          [{ now := 5, test := PerformanceReporter.onTestBegin unstartedTest 0,
             result := thrownValueResult }]).reportData
          "2025-01-01T00:00:00.000Z" 5).toJs) := by
  refine ⟨?_, rfl, ?_⟩
  · decide!
  · decide!

/-- C17 (amended): for every summary built by `saveResults` after `onBegin`
and a sequence of `onTestEnd` calls whose tests all carry a start stamp and
whose results carry either no error or an error with a message, writing it
with `JSON.stringify` and parsing it again yields a value equal to the
summary. -/
theorem C17_round_trip_of_started (cwdRelative : String → String)
    (calls : List PerformanceReporter.EndCall) (timestamp : String) (s totalDuration : Int)
    (h : ∀ c ∈ calls, c.test._startTime ≠ none)
    (hm : ∀ c ∈ calls, ∀ e, c.result.error = some e → e.message ≠ none) :
    ((PerformanceReporter.runFrom (PerformanceReporter.constructor.onBegin s)
        cwdRelative calls).reportData timestamp totalDuration).toJs.throughJson
      = ((PerformanceReporter.runFrom (PerformanceReporter.constructor.onBegin s)
        cwdRelative calls).reportData timestamp totalDuration).toJs := by
  have hprops : ∀ d : ReportData, JsObject.throughJson d.toJs.props = d.toJs.props := by
    intro d
    simp [ReportData.toJs, JsObject.throughJson, JsScalar.throughJson]
  have htests : ∀ recs : List TestRecord,
      (∀ rec ∈ recs, JsObject.throughJson rec.toJs = rec.toJs) →
      (recs.map TestRecord.toJs).map JsObject.throughJson = recs.map TestRecord.toJs := by
    intro recs hrecs
    rw [List.map_map]
    exact List.map_congr_left (fun rec hrec => hrecs rec hrec)
  unfold SummaryValue.throughJson
  rw [hprops]
  have := htests ((PerformanceReporter.runFrom (PerformanceReporter.constructor.onBegin s)
        cwdRelative calls).reportData timestamp totalDuration).tests (by
    intro rec hrec
    simp only [PerformanceReporter.reportData, PerformanceReporter.runFrom_testResults,
      PerformanceReporter.onBegin, PerformanceReporter.constructor, List.nil_append,
      List.mem_map] at hrec
    obtain ⟨c, hc, rfl⟩ := hrec
    exact mkTestResult_throughJson cwdRelative c.now c.test c.result (h c hc) (hm c hc))
  simp only [ReportData.toJs] at this ⊢
  rw [this]

/-- C17 (witness): the summary built after the three calls of `threeCalls`,
whose tests all carry a start stamp and whose one error has a message, comes
back as it was. -/
theorem C17_round_trip_of_started_witness :
    (∀ c ∈ threeCalls, c.test._startTime ≠ none)
    ∧ (∀ c ∈ threeCalls, ∀ e, c.result.error = some e → e.message ≠ none)
    ∧ ((PerformanceReporter.runFrom (PerformanceReporter.constructor.onBegin 0)
        id threeCalls).reportData "2025-01-01T00:00:00.000Z" 500).toJs.throughJson
      = ((PerformanceReporter.runFrom (PerformanceReporter.constructor.onBegin 0)
        id threeCalls).reportData "2025-01-01T00:00:00.000Z" 500).toJs :=
  have hm : ∀ c ∈ threeCalls, ∀ e, c.result.error = some e → e.message ≠ none := by
    intro c hc e he
    simp only [threeCalls, List.mem_cons, List.mem_singleton, List.not_mem_nil, or_false] at hc
    rcases hc with rfl | rfl | rfl
    · simp [passedResult] at he
    · simp only [Option.some.injEq] at he
      subst he
      simp
    · simp at he
  ⟨by decide, hm, C17_round_trip_of_started id threeCalls "2025-01-01T00:00:00.000Z" 0 500
    (by decide) hm⟩

/-- C18 (counterexample): the record appended for a result with status
`timedOut` that carries the timeout's error has a non-null error, the message
of the timeout, although its status is not `failed`. -/
theorem C18_error_counterexample :
    (∃ rec ∈ (PerformanceReporter.constructor.onTestEnd id 30000
          (PerformanceReporter.onTestBegin unstartedTest 0) timedOutResult).testResults,
        rec.error = RecordError.message "Test timeout of 30000ms exceeded."
        ∧ rec.status = "timedOut")
    ∧ ¬ (∀ rec ∈ (PerformanceReporter.constructor.onTestEnd id 30000
          (PerformanceReporter.onTestBegin unstartedTest 0) timedOutResult).testResults,
        rec.error ≠ RecordError.null → rec.status = "failed") := by
  refine ⟨⟨_, List.mem_singleton.mpr rfl, rfl, rfl⟩, ?_⟩
  decide

/-- C18 (amended): every record appended by `onTestEnd` has the error `null`
exactly when the result passed to the call carries no error, whatever its
status; when the result carries an error, the record's error is what reading
`message` of that error gives: the message string if the error has one,
`undefined` if it has none; and the record keeps the result's status. -/
theorem C18_error_follows_result (r : PerformanceReporter) (cwdRelative : String → String)
    (now : Int) (test : TestCase) (result : TestResult) :
    ∃ rec : TestRecord,
      (r.onTestEnd cwdRelative now test result).testResults = r.testResults ++ [rec]
      ∧ (rec.error = RecordError.null ↔ result.error = none)
      ∧ (∀ (e : TestError) (m : String), result.error = some e → e.message = some m →
          rec.error = RecordError.message m)
      ∧ (∀ e : TestError, result.error = some e → e.message = none →
          rec.error = RecordError.undefined)
      ∧ rec.status = result.status := by
  refine ⟨PerformanceReporter.mkTestResult cwdRelative now test result,
    PerformanceReporter.onTestEnd_testResults r cwdRelative now test result, ?_, ?_, ?_, rfl⟩
  · cases he : result.error with
    | none => simp [PerformanceReporter.mkTestResult, he]
    | some e =>
      cases hmsg : e.message <;>
        simp [PerformanceReporter.mkTestResult, he, TestError.messageValue, hmsg]
  · intro e m he hmsg
    simp [PerformanceReporter.mkTestResult, he, TestError.messageValue, hmsg]
  · intro e he hmsg
    simp [PerformanceReporter.mkTestResult, he, TestError.messageValue, hmsg]

/-- C18 (witness): the record appended for a failed result whose error has no
message has the error `undefined` and the status `failed`. -/
theorem C18_error_follows_result_witness :
    ∃ rec : TestRecord,
      (PerformanceReporter.constructor.onTestEnd id 5
          (PerformanceReporter.onTestBegin unstartedTest 0) thrownValueResult).testResults
        = PerformanceReporter.constructor.testResults ++ [rec]
      ∧ rec.error = RecordError.undefined
      ∧ rec.status = "failed" := by
  obtain ⟨rec, hrec, _, _, hundef, hstatus⟩ :=
    C18_error_follows_result PerformanceReporter.constructor id 5
      (PerformanceReporter.onTestBegin unstartedTest 0) thrownValueResult
  exact ⟨rec, hrec, hundef { message := none } rfl rfl, hstatus⟩

/-- C19: each `onTestEnd` call adds exactly one record at the end of
`testResults` and leaves every earlier record at its position. -/
theorem C19_append_only (r : PerformanceReporter) (cwdRelative : String → String)
    (now : Int) (test : TestCase) (result : TestResult) :
    ∃ rec : TestRecord,
      (r.onTestEnd cwdRelative now test result).testResults = r.testResults ++ [rec]
      ∧ (r.onTestEnd cwdRelative now test result).testResults.length
          = r.testResults.length + 1
      ∧ ∀ i : Nat, i < r.testResults.length →
          (r.onTestEnd cwdRelative now test result).testResults[i]? = r.testResults[i]? := by
  refine ⟨PerformanceReporter.mkTestResult cwdRelative now test result,
    PerformanceReporter.onTestEnd_testResults r cwdRelative now test result, ?_, ?_⟩
  · rw [PerformanceReporter.onTestEnd_testResults]
    simp
  · intro i hi
    rw [PerformanceReporter.onTestEnd_testResults]
    exact List.getElem?_append_left hi

/-- C20: after `onBegin` at clock reading `s` and any sequence of `onTestEnd`
calls, `onEnd` at clock reading `e` passes `e - s` as total duration to
`saveResults` and to `generateHTMLReport`: its effect is that of the two
methods run with `e - s`, and when the directory call and the JSON write
succeed, the summary written has `totalDuration = e - s` and the document
written is the one `createHTMLReport` returns for `e - s`. -/
theorem C20_total_duration_is_suite_span (cwdRelative : String → String)
    (calls : List PerformanceReporter.EndCall) (host : Host) (s e : Int)
    (hm : host.mkdirError = none) (hj : host.writeJsonError = none) :
    ((PerformanceReporter.runFrom (PerformanceReporter.constructor.onBegin s)
        cwdRelative calls).onEnd host e).1.suiteEndTime = some e
    ∧ ((PerformanceReporter.runFrom (PerformanceReporter.constructor.onBegin s)
        cwdRelative calls).onEnd host e).2
      = PerformanceReporter.writeReports
          ((PerformanceReporter.runFrom (PerformanceReporter.constructor.onBegin s)
            cwdRelative calls).onEnd host e).1 host (e - s)
    ∧ ∃ (data : ReportData) (document : HtmlReport),
      data.totalDuration = e - s
      ∧ PerformanceReporter.createHTMLReport
          ((PerformanceReporter.runFrom (PerformanceReporter.constructor.onBegin s)
            cwdRelative calls).onEnd host e).1 host (e - s) = Except.ok document
      ∧ ((PerformanceReporter.runFrom (PerformanceReporter.constructor.onBegin s)
          cwdRelative calls).onEnd host e).2.attempted
        = [FsCall.mkdir "reports",
           FsCall.writeJson "reports/playwright-results.json" data,
           FsCall.writeHtml "reports/performance-comparison.html" document] := by
  have hstart : (PerformanceReporter.runFrom (PerformanceReporter.constructor.onBegin s)
      cwdRelative calls).suiteStartTime = some s := by
    rw [PerformanceReporter.runFrom_suiteStartTime]
    rfl
  have hd : PerformanceReporter.totalDurationAt
      ((PerformanceReporter.runFrom (PerformanceReporter.constructor.onBegin s)
        cwdRelative calls).onEnd host e).1 e = e - s := by
    simp [PerformanceReporter.onEnd, PerformanceReporter.totalDurationAt, hstart]
  have heff : ((PerformanceReporter.runFrom (PerformanceReporter.constructor.onBegin s)
        cwdRelative calls).onEnd host e).2
      = PerformanceReporter.writeReports
          ((PerformanceReporter.runFrom (PerformanceReporter.constructor.onBegin s)
            cwdRelative calls).onEnd host e).1 host (e - s) := by
    rw [← hd]
    rfl
  refine ⟨rfl, heff, ?_⟩
  obtain ⟨document, hdoc, hw⟩ := PerformanceReporter.writeReports_of_saved
    ((PerformanceReporter.runFrom (PerformanceReporter.constructor.onBegin s)
      cwdRelative calls).onEnd host e).1 host (e - s) hm hj
  refine ⟨PerformanceReporter.reportData
      ((PerformanceReporter.runFrom (PerformanceReporter.constructor.onBegin s)
        cwdRelative calls).onEnd host e).1 host.isoTimestamp (e - s),
    document, rfl, hdoc, ?_⟩
  rw [heff, hw]

/-- C20 (witness): suite begun at 1000 and ended at 1500 with the three calls
of `threeCalls`: the summary written has `totalDuration = 500`. -/
theorem C20_total_duration_is_suite_span_witness :
    (sampleHost PytestFile.absent none).mkdirError = none
    ∧ (sampleHost PytestFile.absent none).writeJsonError = none
    ∧ ∃ (data : ReportData) (document : HtmlReport),
      data.totalDuration = 1500 - 1000
      ∧ PerformanceReporter.createHTMLReport
          ((PerformanceReporter.runFrom (PerformanceReporter.constructor.onBegin 1000)
            id threeCalls).onEnd (sampleHost PytestFile.absent none) 1500).1
          (sampleHost PytestFile.absent none) (1500 - 1000) = Except.ok document
      ∧ ((PerformanceReporter.runFrom (PerformanceReporter.constructor.onBegin 1000)
          id threeCalls).onEnd (sampleHost PytestFile.absent none) 1500).2.attempted
        = [FsCall.mkdir "reports",
           FsCall.writeJson "reports/playwright-results.json" data,
           FsCall.writeHtml "reports/performance-comparison.html" document] :=
  ⟨rfl, rfl,
    (C20_total_duration_is_suite_span id threeCalls (sampleHost PytestFile.absent none)
      1000 1500 rfl rfl).2.2⟩

/-- C21: for every project root path, `ADMIN_PROTOTYPE_URL` starts with
`file://`, ends with `/admin-prototype.html` and contains no backslash. -/
theorem C21_admin_url_shape (projectRoot : String) :
    "file://".data <+: (TestConfig.ADMIN_PROTOTYPE_URL projectRoot).data
    ∧ "/admin-prototype.html".data <:+ (TestConfig.ADMIN_PROTOTYPE_URL projectRoot).data
    ∧ '\\' ∉ (TestConfig.ADMIN_PROTOTYPE_URL projectRoot).data := by
  have hdata : (TestConfig.ADMIN_PROTOTYPE_URL projectRoot).data
      = "file://".data
        ++ (projectRoot.data.map (fun c => if c = '\\' then '/' else c)
          ++ "/admin-prototype.html".data) := by
    simp [TestConfig.ADMIN_PROTOTYPE_URL, TestConfig.HTML_FILES_PATH,
      TestConfig.replaceBackslashes, String.data_append]
  rw [hdata]
  refine ⟨List.prefix_append _ _, ?_, ?_⟩
  · rw [← List.append_assoc]
    exact List.suffix_append _ _
  · simp only [List.mem_append, List.mem_map, not_or]
    refine ⟨by decide, ?_, by decide⟩
    rintro ⟨c, _, hc⟩
    split_ifs at hc with h
    · exact absurd hc (by decide)
    · exact h hc

/-- C22: for every options object whose `userId`, `name`, `email` and `role`
are all non-empty strings, `createTestUser` makes no draw from the random
source (the number of draws is unchanged and the result is the same for every
source) and returns exactly `{id: userId, name, email, role}`. -/
theorem C22_createTestUser_given (rs : RandomSource) (toLowerCase : String → String)
    (userId name email role : String) (k : Nat)
    (hid : userId ≠ "") (hname : name ≠ "") (hemail : email ≠ "") (hrole : role ≠ "") :
    TestDataHelper.createTestUser rs toLowerCase
        { userId := some userId, name := some name, email := some email, role := some role } k
      = ({ id := userId, name := name, email := email, role := some role }, k)
    ∧ ∀ (rs2 : RandomSource) (lower2 : String → String) (k2 : Nat),
        (TestDataHelper.createTestUser rs2 lower2
          { userId := some userId, name := some name, email := some email,
            role := some role } k2).1
        = (TestDataHelper.createTestUser rs toLowerCase
          { userId := some userId, name := some name, email := some email,
            role := some role } k).1 := by
  have hall : ∀ (s : RandomSource) (l : String → String) (j : Nat),
      TestDataHelper.createTestUser s l
        { userId := some userId, name := some name, email := some email, role := some role } j
      = ({ id := userId, name := name, email := email, role := some role }, j) := by
    intro s l j
    simp [TestDataHelper.createTestUser, truthyString_of_ne_empty, hid, hname, hemail, hrole]
  refine ⟨hall rs toLowerCase k, ?_⟩
  intro rs2 lower2 k2
  rw [hall rs2 lower2 k2, hall rs toLowerCase k]

/-- C22 (witness): the user of `fullUserOptions`. -/
theorem C22_createTestUser_given_witness :
    ("U777" : String) ≠ "" ∧ ("Ann Lee" : String) ≠ "" ∧ ("ann@example.com" : String) ≠ ""
    ∧ ("Management" : String) ≠ ""
    ∧ TestDataHelper.createTestUser halfSource id
        { userId := some "U777", name := some "Ann Lee", email := some "ann@example.com",
          role := some "Management" } 0
      = ({ id := "U777", name := "Ann Lee", email := "ann@example.com",
           role := some "Management" }, 0) :=
  ⟨by decide, by decide, by decide, by decide,
    (C22_createTestUser_given halfSource id "U777" "Ann Lee" "ann@example.com" "Management" 0
      (by decide) (by decide) (by decide) (by decide)).1⟩

/-- C23: when `createTestRole` is called without permissions, and the sort of
line 204 leaves a rearrangement of the copied array, the returned permissions
list has between 2 and 4 entries, all distinct and all taken from
`getPermissions()`, for every outcome of the random source. -/
theorem C23_random_permissions (rs : RandomSource) (options : RoleOptions) (k : Nat)
    (hnone : options.permissions = none)
    (hperm : ∀ j : Nat,
      (rs.sorted j TestDataHelper.getPermissions).Perm TestDataHelper.getPermissions) :
    2 ≤ (TestDataHelper.createTestRole rs options k).permissions.length
    ∧ (TestDataHelper.createTestRole rs options k).permissions.length ≤ 4
    ∧ (TestDataHelper.createTestRole rs options k).permissions.Nodup
    ∧ ∀ p ∈ (TestDataHelper.createTestRole rs options k).permissions,
        p ∈ TestDataHelper.getPermissions := by
  have hshape : ∃ (c j : Nat), c < 3
      ∧ (TestDataHelper.createTestRole rs options k).permissions
        = (rs.sorted j TestDataHelper.getPermissions).take (c + 2) := by
    cases hn : truthyString options.name with
    | none =>
      exact ⟨rs.floorTimes (k + 2) 3, k + 2 + 1, rs.floorTimes_lt _ 3 (by decide),
        by simp [TestDataHelper.createTestRole, hnone, hn]⟩
    | some v =>
      exact ⟨rs.floorTimes k 3, k + 1, rs.floorTimes_lt _ 3 (by decide),
        by simp [TestDataHelper.createTestRole, hnone, hn]⟩
  obtain ⟨c, j, hc, hperms⟩ := hshape
  have hlen : (rs.sorted j TestDataHelper.getPermissions).length = 12 := by
    rw [(hperm j).length_eq]
    decide
  have hnodup : (rs.sorted j TestDataHelper.getPermissions).Nodup :=
    (hperm j).nodup_iff.mpr (by decide)
  rw [hperms]
  refine ⟨?_, ?_, ?_, ?_⟩
  · rw [List.length_take, hlen]; omega
  · rw [List.length_take, hlen]; omega
  · exact hnodup.sublist (List.take_sublist _ _)
  · intro p hp
    exact (hperm j).mem_iff.mp (List.mem_of_mem_take hp)

/-- C23 (witness): with every draw `1/2` and a sort that leaves the array as
it is, the role gets the first three permissions. -/
theorem C23_random_permissions_witness :
    ({ name := none, description := none, permissions := none } : RoleOptions).permissions
      = none
    ∧ (∀ j : Nat,
      (halfSource.sorted j TestDataHelper.getPermissions).Perm TestDataHelper.getPermissions)
    ∧ 2 ≤ (TestDataHelper.createTestRole halfSource
        { name := none, description := none, permissions := none } 0).permissions.length
    ∧ (TestDataHelper.createTestRole halfSource
        { name := none, description := none, permissions := none } 0).permissions.length ≤ 4
    ∧ (TestDataHelper.createTestRole halfSource
        { name := none, description := none, permissions := none } 0).permissions.Nodup
    ∧ ∀ p ∈ (TestDataHelper.createTestRole halfSource
        { name := none, description := none, permissions := none } 0).permissions,
        p ∈ TestDataHelper.getPermissions :=
  ⟨rfl, fun _ => List.Perm.refl _,
    C23_random_permissions halfSource { name := none, description := none, permissions := none }
      0 rfl (fun _ => List.Perm.refl _)⟩

/-- C24: for every count `n`, `generateBulkUsers(n)` returns exactly `n` users
in order; the user at position `j` (counting from 0) has the id `BULK`
followed by `j + 1` left-padded with zeros to at least 3 digits (a text of at
least three decimal digits whose value is `j + 1`); all ids are pairwise
distinct. -/
theorem C24_bulk_users (rs : RandomSource) (toLowerCase : String → String) (n k : Nat) :
    (TestDataHelper.generateBulkUsers rs toLowerCase n k).length = n
    ∧ (∀ j : Nat, j < n →
        ∃ digits : List Char,
          ((TestDataHelper.generateBulkUsers rs toLowerCase n k).map TestUser.id)[j]?
            = some ("BULK" ++ String.mk digits)
          ∧ String.mk digits = padStart (toString (j + 1)) 3 '0'
          ∧ 3 ≤ digits.length
          ∧ (∀ c ∈ digits, c.isDigit = true)
          ∧ decimalValue digits = j + 1)
    ∧ ((TestDataHelper.generateBulkUsers rs toLowerCase n k).map TestUser.id).Nodup := by
  have hids := TestDataHelper.bulkLoop_ids rs toLowerCase n 0 k
  simp only [Nat.zero_add] at hids
  have hlen : (TestDataHelper.generateBulkUsers rs toLowerCase n k).length = n := by
    have := congrArg List.length hids
    simpa [TestDataHelper.generateBulkUsers] using this
  refine ⟨hlen, ?_, ?_⟩
  · intro j hj
    refine ⟨(padStart (toString (j + 1)) 3 '0').data, ?_, rfl, ?_, ?_, ?_⟩
    · unfold TestDataHelper.generateBulkUsers
      rw [hids]
      simp [hj, TestDataHelper.bulkUserId]
    · rw [padStart_data, List.length_append, List.length_replicate]
      have : (toString (j + 1)).data.length = (toString (j + 1)).length := rfl
      omega
    · intro c hc
      rw [padStart_data, List.mem_append] at hc
      rcases hc with hc | hc
      · rw [(List.mem_replicate.mp hc).2]
        rfl
      · exact isDigit_of_mem_toDigits (j + 1) c hc
    · exact decimalValue_padStart_toString (j + 1) 3
  · unfold TestDataHelper.generateBulkUsers
    rw [hids]
    exact (List.nodup_range n).map TestDataHelper.bulkUserId_injective

/-- C24 (witness): three bulk users; the first id is `BULK001`. -/
theorem C24_bulk_users_witness :
    (TestDataHelper.generateBulkUsers halfSource id 3 0).length = 3
    ∧ ((TestDataHelper.generateBulkUsers halfSource id 3 0).map TestUser.id)[0]?
        = some "BULK001" := by
  obtain ⟨hlen, hid, _⟩ := C24_bulk_users halfSource id 3 0
  refine ⟨hlen, ?_⟩
  obtain ⟨digits, hj, hpad, _⟩ := hid 0 (by decide)
  rw [hj, hpad]
  decide

/-- C25: for every length `n` and every outcome of the random source,
`generateRandomString(n)` returns a string of exactly `n` characters, each one
of the 62 characters of its alphabet, which are ASCII letters and digits. -/
theorem C25_random_string (rs : RandomSource) (n k : Nat) :
    (TestUtils.generateRandomString rs n k).length = n
    ∧ (∀ c ∈ (TestUtils.generateRandomString rs n k).data, c ∈ TestUtils.chars.data)
    ∧ TestUtils.chars.length = 62
    ∧ ∀ c ∈ TestUtils.chars.data, c.isAlphanum = true ∧ c.toNat < 128 := by
  obtain ⟨cs, hdata, hlen, hmem⟩ := TestUtils.randomStringLoop_data rs n k ""
  have hd : (TestUtils.generateRandomString rs n k).data = cs := by
    unfold TestUtils.generateRandomString
    rw [hdata]
    rfl
  refine ⟨?_, ?_, by decide, by decide⟩
  · show (TestUtils.generateRandomString rs n k).data.length = n
    rw [hd, hlen]
  · rw [hd]
    exact hmem

/-- C25 (witness): with every draw `1/2` the string of length 3 is `fff`
(index 31 of the alphabet). -/
theorem C25_random_string_witness :
    (TestUtils.generateRandomString halfSource 3 0).length = 3
    ∧ TestUtils.generateRandomString halfSource 3 0 = "fff" :=
  ⟨(C25_random_string halfSource 3 0).1, by decide!⟩

/-- C26: for every outcome of the random source, `generateRandomStaffId`
returns `EMP` followed by exactly four decimal digits whose value lies between
1 and 9999. -/
theorem C26_staff_id (rs : RandomSource) (k : Nat) :
    ∃ digits : List Char,
      TestUtils.generateRandomStaffId rs k = "EMP" ++ String.mk digits
      ∧ digits.length = 4
      ∧ (∀ c ∈ digits, c.isDigit = true)
      ∧ 1 ≤ decimalValue digits ∧ decimalValue digits ≤ 9999 := by
  have hlt : rs.floorTimes k 9999 < 9999 := rs.floorTimes_lt k 9999 (by decide)
  have hlen : (toString (rs.floorTimes k 9999 + 1)).length ≤ 4 :=
    Nat.repr_length (rs.floorTimes k 9999 + 1) 4 (by decide) (by omega)
  have hval := decimalValue_padStart_toString (rs.floorTimes k 9999 + 1) 4
  refine ⟨(padStart (toString (rs.floorTimes k 9999 + 1)) 4 '0').data, rfl, ?_, ?_, ?_, ?_⟩
  · rw [padStart_data, List.length_append, List.length_replicate]
    have : (toString (rs.floorTimes k 9999 + 1)).data.length
        = (toString (rs.floorTimes k 9999 + 1)).length := rfl
    omega
  · intro c hc
    rw [padStart_data, List.mem_append] at hc
    rcases hc with hc | hc
    · rw [(List.mem_replicate.mp hc).2]
      rfl
    · exact isDigit_of_mem_toDigits _ c hc
  · rw [hval]; omega
  · rw [hval]; omega

/-- C26 (witness): with the draw `1/2` the staff id is `EMP5000`. -/
theorem C26_staff_id_witness :
    TestUtils.generateRandomStaffId halfSource 0 = "EMP5000"
    ∧ ∃ digits : List Char,
      TestUtils.generateRandomStaffId halfSource 0 = "EMP" ++ String.mk digits
      ∧ digits.length = 4
      ∧ (∀ c ∈ digits, c.isDigit = true)
      ∧ 1 ≤ decimalValue digits ∧ decimalValue digits ≤ 9999 :=
  ⟨by decide!, C26_staff_id halfSource 0⟩

/-- C27 (counterexample): for the two object literals of `constructorRows`,
the first with a property named `constructor` that the second does not have,
the line of the second element holds the text of the function `Object`, which
the element inherits, where the described text has the empty string. -/
theorem C27_csv_inherited_counterexample :
    TestUtils.generateCSVContent (fun _ => "") (some constructorRows)
      = "name,constructor\na,x\nb,function Object() \x7b [native code] \x7d"
    ∧ (∃ first rest, constructorRows = first :: rest
        ∧ specCsvContent (fun _ => "") first rest = "name,constructor\na,x\nb,")
    ∧ ∃ first rest, constructorRows = first :: rest
        ∧ TestUtils.generateCSVContent (fun _ => "") (some constructorRows)
          ≠ specCsvContent (fun _ => "") first rest := by
  refine ⟨by decide, ⟨_, _, rfl, by decide⟩, ⟨_, _, rfl, by decide⟩⟩

/-- C27 (amended): `generateCSVContent` returns the empty text for a `null`
argument and for an empty list; for every non-empty list of row objects in
which no element inherits a property under a header key that it does not have
itself, it returns the comma-joined keys of the first element, then one line
per element in input order holding the element's values for those keys, a
missing or falsy value (the number 0 included) written as the empty text. -/
theorem C27_csv_content (hostText : ℚ → String) (first : CsvRow) (rest : List CsvRow)
    (h : ∀ row ∈ first :: rest, ∀ header ∈ first.own.map Prod.fst,
      row.own.lookup header = none → row.inherited header = none) :
    TestUtils.generateCSVContent hostText none = ""
    ∧ TestUtils.generateCSVContent hostText (some []) = ""
    ∧ TestUtils.generateCSVContent hostText (some (first :: rest))
      = specCsvContent hostText first rest
    ∧ ∀ (row : CsvRow) (header : String),
        (row.own.lookup header = none
          ∨ row.own.lookup header = some (CellValue.number (JsNum.fin 0))
          ∨ row.own.lookup header = some (CellValue.number JsNum.nan)
          ∨ row.own.lookup header = some (CellValue.bigint 0)
          ∨ row.own.lookup header = some (CellValue.bool false)
          ∨ row.own.lookup header = some (CellValue.string "")
          ∨ row.own.lookup header = some CellValue.null
          ∨ row.own.lookup header = some CellValue.undefined) →
        specCsvCell hostText row header = "" := by
  refine ⟨rfl, rfl, ?_, ?_⟩
  · simp only [TestUtils.generateCSVContent, specCsvContent]
    congr 2
    apply List.map_congr_left
    intro row hrow
    congr 1
    apply List.map_congr_left
    intro header hheader
    exact joinText_orEmpty_eq_specCsvCell hostText row header (h row hrow header hheader)
  · intro row header h
    rcases h with h | h | h | h | h | h | h | h <;> simp [specCsvCell, h]

/-- C27 (witness): the two object literals of `sampleRows`, the second with a
count of `0` and no `note`; no header key is a property of
`Object.prototype`. -/
theorem C27_csv_content_witness :
    (∀ row ∈ sampleRows, ∀ header ∈ ["name", "count", "note"],
      row.own.lookup header = none → row.inherited header = none)
    ∧ TestUtils.generateCSVContent (fun _ => "") (some sampleRows)
      = "name,count,note\na,2,x\nb,," := by
  have hinh : ∀ row ∈ sampleRows, ∀ header ∈ ["name", "count", "note"],
      row.own.lookup header = none → row.inherited header = none := by
    intro row hrow header hheader _
    simp only [sampleRows, List.mem_cons, List.mem_singleton, List.not_mem_nil,
      or_false] at hrow hheader
    rcases hrow with rfl | rfl <;> rcases hheader with rfl | rfl | rfl <;>
      simp [objectLiteral, objectPrototype]
  have h := (C27_csv_content (fun _ => "")
    (objectLiteral [("name", CellValue.string "a"), ("count", CellValue.number (JsNum.fin 2)),
      ("note", CellValue.string "x")])
    [objectLiteral [("name", CellValue.string "b"), ("count", CellValue.number (JsNum.fin 0))]]
    hinh).2.2.1
  refine ⟨hinh, ?_⟩
  unfold sampleRows
  rw [h]
  decide

/-- C28: `onTestEnd` counts a result with status `timedOut` as skipped: it
increments `totalTests` and `skippedTests` by one, leaves `passedTests` and
`failedTests` unchanged, and the appended record keeps the status `timedOut`. -/
theorem C28_timedOut_counts_as_skipped (r : PerformanceReporter)
    (cwdRelative : String → String) (now : Int) (test : TestCase) (result : TestResult)
    (h : result.status = "timedOut") :
    (r.onTestEnd cwdRelative now test result).totalTests = r.totalTests + 1
    ∧ (r.onTestEnd cwdRelative now test result).skippedTests = r.skippedTests + 1
    ∧ (r.onTestEnd cwdRelative now test result).passedTests = r.passedTests
    ∧ (r.onTestEnd cwdRelative now test result).failedTests = r.failedTests
    ∧ ∃ rec : TestRecord,
        (r.onTestEnd cwdRelative now test result).testResults = r.testResults ++ [rec]
        ∧ rec.status = "timedOut" := by
  have h1 : ¬ ("timedOut" = "passed") := by decide
  have h2 : ¬ ("timedOut" = "failed") := by decide
  refine ⟨PerformanceReporter.onTestEnd_totalTests r cwdRelative now test result, ?_, ?_, ?_,
    PerformanceReporter.mkTestResult cwdRelative now test result,
    PerformanceReporter.onTestEnd_testResults r cwdRelative now test result, ?_⟩
  · simp [PerformanceReporter.onTestEnd, PerformanceReporter.countStatus, h, h1, h2]
  · simp [PerformanceReporter.onTestEnd, PerformanceReporter.countStatus, h, h1, h2]
  · simp [PerformanceReporter.onTestEnd, PerformanceReporter.countStatus, h, h1, h2]
  · simp [PerformanceReporter.mkTestResult, h]

/-- C28 (witness): a timed-out result on a fresh reporter gives the counters
`1, 0, 0, 1` (total, passed, failed, skipped). -/
theorem C28_timedOut_counts_as_skipped_witness :
    timedOutResult.status = "timedOut"
    ∧ (PerformanceReporter.constructor.onTestEnd id 30000
        (PerformanceReporter.onTestBegin unstartedTest 0) timedOutResult).totalTests
      = PerformanceReporter.constructor.totalTests + 1
    ∧ (PerformanceReporter.constructor.onTestEnd id 30000
        (PerformanceReporter.onTestBegin unstartedTest 0) timedOutResult).skippedTests
      = PerformanceReporter.constructor.skippedTests + 1
    ∧ (PerformanceReporter.constructor.onTestEnd id 30000
        (PerformanceReporter.onTestBegin unstartedTest 0) timedOutResult).passedTests
      = PerformanceReporter.constructor.passedTests
    ∧ (PerformanceReporter.constructor.onTestEnd id 30000
        (PerformanceReporter.onTestBegin unstartedTest 0) timedOutResult).failedTests
      = PerformanceReporter.constructor.failedTests
    ∧ ∃ rec : TestRecord,
        (PerformanceReporter.constructor.onTestEnd id 30000
          (PerformanceReporter.onTestBegin unstartedTest 0) timedOutResult).testResults
          = PerformanceReporter.constructor.testResults ++ [rec]
        ∧ rec.status = "timedOut" :=
  ⟨rfl, C28_timedOut_counts_as_skipped PerformanceReporter.constructor id 30000
    (PerformanceReporter.onTestBegin unstartedTest 0) timedOutResult rfl⟩

/-- C29 (counterexample): for the unequal durations 100000 and 100001 the
percentage difference computed by `createComparisonSection` is `0.00`. -/
theorem C29_percent_zero_counterexample :
    (100000 : Int) ≠ 100001
    ∧ (PerformanceReporter.constructor.createComparisonSection (fun _ => "")
        (pytestWithDuration 100001) 100000).percentDiff = fixedText false 0
    ∧ fixedText false 0 = "0.00" := by
  refine ⟨by decide, ?_, by decide⟩
  decide!

/-- C29 (amended): for all non-negative total durations `a` and `b` below
`2^53` that are not both zero, the percentage difference computed by
`createComparisonSection` is the two-decimal text of a number of hundredths
between 0 and 10000, that is, it lies between 0 and 100 inclusive, and it is 0
when the two durations are equal. -/
theorem C29_percent_range (r : PerformanceReporter) (expText : ℚ → String)
    (pytestData : PytestData) (a b : Int) (h : pytestData.totalDuration = some b)
    (ha : 0 ≤ a) (hb : 0 ≤ b) (hne : ¬ (a = 0 ∧ b = 0))
    (hsa : a < 2 ^ 53) (hsb : b < 2 ^ 53) :
    ∃ n : Nat,
      (r.createComparisonSection expText pytestData a).percentDiff = fixedText false n
      ∧ n ≤ 10000
      ∧ (a = b → n = 0) := by
  have hmax : max a b ≠ 0 := by omega
  have hms : |max a b| < 2 ^ 53 := by
    rw [abs_lt]
    constructor <;> omega
  have hD : |a - b| ≤ 2 ^ 53 := by
    rw [abs_le]
    constructor <;> omega
  obtain ⟨y, htext, hclose⟩ := percentDiffOf_double expText pytestData a b h hmax hms hD
  have h0 := specPercentDiff_nonneg a b ha
  have h100 := specPercentDiff_le a b ha hb
  have hc1 : (2 : ℚ) / 2 ^ 53 + 1 / 2 ^ 106 < 1 := by norm_num
  have hy0 : 0 ≤ y := by
    by_contra hneg
    push_neg at hneg
    have := (neg_iff_of_rel_close _ y _ hc1 hclose).mp hneg
    linarith
  have hdec : decide (y < 0) = false := by simpa using hy0
  rw [abs_of_nonneg h0] at hclose
  have hyle : y ≤ specPercentDiff a b + specPercentDiff a b * (2 / 2 ^ 53 + 1 / 2 ^ 106) := by
    have := (abs_le.mp hclose).2
    linarith
  refine ⟨nearestHundredths |y|, ?_, ?_, ?_⟩
  · show PerformanceReporter.percentDiffOf expText pytestData a = _
    rw [htext, hdec]
  · rw [abs_of_nonneg hy0]
    unfold nearestHundredths
    have hfl : ⌊y * 100 + 1 / 2⌋ < 10001 := by
      rw [Int.floor_lt]
      have hc : (100 : ℚ) * (2 / 2 ^ 53 + 1 / 2 ^ 106) ≤ 1 / 1000 := by norm_num
      push_cast
      nlinarith
    omega
  · intro hab
    have hz : specPercentDiff a b = 0 := by
      unfold specPercentDiff
      rw [hab]
      simp
    rw [hz] at hclose
    simp only [zero_mul] at hclose
    have hy : y = 0 := by
      have := abs_nonpos_iff.mp hclose
      linarith
    rw [hy]
    unfold nearestHundredths
    norm_num

/-- C29 (witness): for 1000 against 2000 the percentage is the text of a
number of hundredths between 0 and 10000. -/
theorem C29_percent_range_witness :
    (pytestWithDuration 2000).totalDuration = some 2000
    ∧ (0 : Int) ≤ 1000 ∧ (0 : Int) ≤ 2000 ∧ ¬ ((1000 : Int) = 0 ∧ (2000 : Int) = 0)
    ∧ (1000 : Int) < 2 ^ 53 ∧ (2000 : Int) < 2 ^ 53
    ∧ ∃ n : Nat,
      (PerformanceReporter.constructor.createComparisonSection (fun _ => "")
        (pytestWithDuration 2000) 1000).percentDiff = fixedText false n
      ∧ n ≤ 10000
      ∧ ((1000 : Int) = 2000 → n = 0) :=
  ⟨rfl, by decide, by decide, by decide, by decide, by decide,
    C29_percent_range PerformanceReporter.constructor (fun _ => "")
      (pytestWithDuration 2000) 1000 2000 rfl (by decide) (by decide) (by decide)
      (by decide) (by decide)⟩

/-- C30 (code defect): the role `Account Manager` returned from
`getMockRoles()` names the permission `customer_management`, which is not
among the permissions returned from `getPermissions()`; it is the only such
permission, and every role held by a user returned from `getMockUsers()` is
the name of a role returned from `getMockRoles()`. -/
theorem C30_role_permission_not_available :
    (∃ role ∈ TestDataHelper.getMockRoles,
      role.name = "Account Manager" ∧ "customer_management" ∈ role.permissions)
    ∧ "customer_management" ∉ TestDataHelper.getPermissions
    ∧ (∀ role ∈ TestDataHelper.getMockRoles, ∀ p ∈ role.permissions,
        p ≠ "customer_management" → p ∈ TestDataHelper.getPermissions)
    ∧ ∀ user ∈ TestDataHelper.getMockUsers,
        user.role ∈ TestDataHelper.getMockRoles.map MockRole.name := by
  refine ⟨?_, by decide, by decide, by decide⟩
  exact ⟨_, List.mem_cons_of_mem _ (List.mem_cons_of_mem _ (List.mem_cons_self _ _)),
    rfl, by decide⟩
